import Mathlib

/-
Shallow embedding of the guild migration engine (src/migrators/server_migrator.py
and the batch loop of src/main.py).  Python dicts keyed by strings become
association lists with first-match lookup and overwrite-on-insert; every
network call is resolved through an explicit oracle so that each call site can
independently succeed or fail; the observable behaviour (API calls issued,
log lines, unsupported-feature notices, rate-limit sleeps) is collected in an
event trace.  Log texts follow the source, with punctuation simplified.
-/

namespace FluxMig

/-- Association list standing for a Python dict from string keys to string
values; the most recent insertion for a key is found first. -/
abbrev Dict := List (String × String)

def dget : Dict → String → Option String
  | [], _ => none
  | p :: d, k => if p.1 == k then some p.2 else dget d k

/-- Python dict assignment: overwrite any previous binding of the key. -/
def dinsert (d : Dict) (k v : String) : Dict :=
  (k, v) :: d.filter (fun p => !(p.1 == k))

/-- Number of bindings a key has in the table. -/
def countKey (d : Dict) (k : String) : Nat :=
  (d.filter (fun p => p.1 == k)).length

/-- Stable insertion into an ascending-by-key list (Python sorted is stable). -/
def insertByKey (key : α → Int) (x : α) : List α → List α
  | [] => [x]
  | y :: ys => if key x ≤ key y then x :: y :: ys else y :: insertByKey key x ys

/-- Python sorted(xs, key=...): stable ascending sort by an integer key. -/
def sortByKey (key : α → Int) : List α → List α
  | [] => []
  | x :: xs => insertByKey key x (sortByKey key xs)

/-- Python sorted(xs, key=..., reverse=True): stable descending sort. -/
def sortByKeyDesc (key : α → Int) (l : List α) : List α :=
  sortByKey (fun x => -(key x)) l

/-- Python str.strip(): remove leading and trailing whitespace, on the
character list of the string. -/
def pyStripL (cs : List Char) : List Char :=
  ((cs.dropWhile Char.isWhitespace).reverse.dropWhile Char.isWhitespace).reverse

/-- An existing destination-side (Fluxer) item, as returned by the
get_guild_roles / get_guild_channels / get_guild_emojis calls: only its id and
name are consumed by the migrator. -/
structure NamedItem where
  id : String
  name : String
deriving Repr, DecidableEq

/-- Python dict comprehension keyed by name (later entries win), used for
existing_roles_by_name / existing_channels_by_name / existing_emojis_by_name. -/
def byName (items : List NamedItem) (n : String) : Option NamedItem :=
  items.reverse.find? (fun it => it.name == n)

/-- Source (Discord) role descriptor; .get defaults of the source are folded
into total fields. -/
structure Role where
  id : String
  name : String
  position : Int
  color : Nat
  permissions : Int
  hoist : Bool
  mentionable : Bool
deriving Repr, DecidableEq

/-- A permission overwrite: type 0 targets a role, 1 a member. -/
structure Overwrite where
  id : String
  otype : Nat
  allow : Int
  deny : Int
deriving Repr, DecidableEq

/-- Source channel descriptor: ctype is the raw integer type code
(0 text, 2 voice, 4 category, 5 announcement, 10 to 12 threads, 13 stage,
15 forum). -/
structure Channel where
  id : String
  name : String
  ctype : Nat
  position : Int
  parent_id : Option String
  topic : Option String
  nsfw : Bool
  bitrate : Nat
  user_limit : Nat
  permission_overwrites : List Overwrite
deriving Repr, DecidableEq

structure Emoji where
  id : String
  name : String
  animated : Bool
deriving Repr, DecidableEq

structure Guild where
  id : String
  name : String
  icon : Option String
deriving Repr, DecidableEq

/-- The four identity mapping tables held on the ServerMigrator instance. -/
structure Maps where
  guild_id_map : Dict
  role_id_map : Dict
  category_id_map : Dict
  channel_id_map : Dict
deriving Repr, DecidableEq

def emptyMaps : Maps := ⟨[], [], [], []⟩

/-- Observable actions of the engine: API calls issued, log lines,
unsupported-feature notices and rate-limit sleeps, in program order.
An unsupported event corresponds to a log_unsupported invocation (which also
writes a WARN log line).  In a create-channel call, a none field is an
argument the source does not pass for that channel shape. -/
inductive Event where
  | logE (msg : String) (level : String)
  | unsupported (feature : String) (details : String)
  | createGuildCall (name : String)
  | fetchFluxerRolesCall
  | fetchFluxerChannelsCall
  | fetchFluxerEmojisCall
  | fetchDiscordRolesCall
  | fetchDiscordChannelsCall
  | fetchDiscordEmojisCall
  | createRoleCall (name : String) (permissions : Int) (color : Nat)
      (hoist : Bool) (mentionable : Bool)
  | reorderCall (positions : List (String × Int))
  | createChannelCall (name : String) (ctype : Nat) (topic : Option String)
      (nsfw : Option Bool) (position : Int) (bitrate : Option Nat)
      (userLimit : Option Nat) (parent : Option (Option String))
  | editPermsCall (channelId : String) (roleId : String) (allow : Int) (deny : Int)
  | createEmojiCall (name : String)
  | downloadCall (url : String)
  | sleepE
deriving Repr, DecidableEq

/-- _apply_channel_permissions, body of the loop for one overwrite: member
overwrites are skipped, role overwrites whose id is not in role_id_map are
skipped, otherwise the edit-permissions call is issued with the mapped role id
and the allow and deny masks unchanged; a failure is logged and absorbed. -/
def applyOverwrite (roleMap : Dict) (chId : String) (editRes : Except String Unit)
    (ow : Overwrite) : List Event :=
  if !(ow.otype == 0) then []
  else
    match dget roleMap ow.id with
    | none => []
    | some fid =>
      Event.editPermsCall chId fid ow.allow ow.deny ::
      (match editRes with
       | Except.ok _ => [Event.logE "    Applied permission overwrite for role" "INFO"]
       | Except.error e => [Event.logE ("    Failed to apply permission: " ++ e) "WARN"])

/-- _apply_channel_permissions: the loop over the permission_overwrites list;
the oracle editRes gives the outcome of the edit call for the overwrite at
each list position. -/
def applyChPermsAux (roleMap : Dict) (chId : String)
    (editRes : Nat → Except String Unit) (k : Nat) : List Overwrite → List Event
  | [] => []
  | ow :: rest =>
      applyOverwrite roleMap chId (editRes k) ow ++
      applyChPermsAux roleMap chId editRes (k + 1) rest

def applyChannelPermissions (roleMap : Dict) (chId : String)
    (editRes : Nat → Except String Unit) (ows : List Overwrite) : List Event :=
  applyChPermsAux roleMap chId editRes 0 ows

/-- _migrate_roles, body of the creation loop for one non-default role:
name-matched roles are mapped and skipped, otherwise a create call is issued;
on success the mapping and target position are recorded and a rate-limit sleep
follows; on failure the error is logged and the loop proceeds. -/
def migrateRoleStep (exByName : String → Option NamedItem)
    (createRes : Except String String) (roleMap : Dict)
    (positions : List (String × Int)) (r : Role) :
    Dict × List (String × Int) × List Event :=
  match exByName r.name with
  | some ex =>
      (dinsert roleMap r.id ex.id,
       positions ++ [(ex.id, r.position)],
       [Event.logE ("Skipping role (already exists): " ++ r.name) "INFO",
        Event.logE ("  Mapped: Discord " ++ r.id ++ " → Fluxer " ++ ex.id) "INFO"])
  | none =>
      let evs0 :=
        [Event.logE ("Creating role: " ++ r.name) "INFO",
         Event.logE ("  Color: " ++ toString r.color) "INFO",
         Event.logE ("  Permissions: " ++ toString r.permissions) "INFO",
         Event.createRoleCall r.name r.permissions r.color r.hoist r.mentionable]
      match createRes with
      | Except.ok fid =>
          (dinsert roleMap r.id fid,
           positions ++ [(fid, r.position)],
           evs0 ++ [Event.logE ("  ✓ Role created with ID: " ++ fid) "INFO",
                    Event.sleepE])
      | Except.error e =>
          (roleMap, positions,
           evs0 ++ [Event.logE ("  Failed to create role " ++ r.name ++ ": " ++ e) "WARN"])

/-- The role-creation loop over the position-sorted non-default roles. -/
def migrateRolesLoop (exByName : String → Option NamedItem)
    (createRes : Nat → Except String String) (k : Nat) (roleMap : Dict)
    (positions : List (String × Int)) :
    List Role → Dict × List (String × Int) × List Event
  | [] => (roleMap, positions, [])
  | r :: rs =>
      let s1 := migrateRoleStep exByName (createRes k) roleMap positions r
      let s2 := migrateRolesLoop exByName createRes (k + 1) s1.1 s1.2.1 rs
      (s2.1, s2.2.1, s1.2.2 ++ s2.2.2)

/-- _reorder_roles: one bulk reposition call with the collected positions
sorted descending; failure is logged as a warning only.  The caller only
invokes it when the position list is non-empty. -/
def reorderRolesEv (reorderRes : Except String Unit)
    (positions : List (String × Int)) : List Event :=
  if positions.isEmpty then []
  else
    let sorted := sortByKeyDesc (fun p => p.2) positions
    [Event.logE "\nReordering roles to match Discord hierarchy..." "INFO",
     Event.reorderCall sorted] ++
    (match reorderRes with
     | Except.ok _ =>
         [Event.logE ("✓ Reordered " ++ toString sorted.length ++ " roles") "INFO"]
     | Except.error e =>
         [Event.logE ("Failed to reorder roles: " ++ e) "WARN",
          Event.logE "(Roles were created but may not be in correct order)" "WARN"])

/-- _migrate_roles after the existing-roles list has been resolved: map the
default role by name without creating it, filter it out, create or map the
rest sorted ascending by position, log the final count (the length of the
filtered input list), then reposition. -/
def migrateRolesCore (roles : List Role) (ex : List NamedItem)
    (createRes : Nat → Except String String) (reorderRes : Except String Unit)
    (roleMap : Dict) : Dict × List Event :=
  let exByName := byName ex
  let s0 :
      Dict × List (String × Int) × List Event :=
    match roles.find? (fun r => r.name == "@everyone") with
    | some er =>
        match exByName "@everyone" with
        | some fe =>
            (dinsert roleMap er.id fe.id,
             [(fe.id, er.position)],
             [Event.logE ("Mapped @everyone role (Discord: " ++ er.id ++
                          " → Fluxer: " ++ fe.id ++ ")") "INFO"])
        | none => (roleMap, [], [])
    | none => (roleMap, [], [])
  let rest := roles.filter (fun r => !(r.name == "@everyone"))
  let s1 := migrateRolesLoop exByName createRes 0 s0.1 s0.2.1
      (sortByKey (fun r => r.position) rest)
  (s1.1,
   s0.2.2 ++ s1.2.2 ++
   [Event.logE ("✓ Migrated " ++ toString rest.length ++ " roles") "INFO"] ++
   reorderRolesEv reorderRes s1.2.1)

/-- _migrate_roles: when no destination role list was pre-fetched it fetches
one itself; a failure of that fetch escapes the function (the error value
carries the trace emitted so far). -/
def migrateRoles (roles : List Role) (existing : Option (List NamedItem))
    (refetch : Except String (List NamedItem))
    (createRes : Nat → Except String String) (reorderRes : Except String Unit)
    (roleMap : Dict) : Except (List Event × String) (Dict × List Event) :=
  let hdr := [Event.logE "\n--- Migrating Roles ---" "INFO"]
  match existing with
  | some ex =>
      let s := migrateRolesCore roles ex createRes reorderRes roleMap
      Except.ok (s.1, hdr ++ s.2)
  | none =>
      match refetch with
      | Except.ok ex =>
          let s := migrateRolesCore roles ex createRes reorderRes roleMap
          Except.ok (s.1, hdr ++ [Event.fetchFluxerRolesCall] ++ s.2)
      | Except.error e =>
          Except.error (hdr ++ [Event.fetchFluxerRolesCall], e)

/-- The fixed forum-conversion marker that prefixes the topic of a forum
channel converted to a text channel. -/
def forumMarker : String := "Converted from forum."

/-- Topic of a converted forum channel: the f-string
"Converted from forum. " followed by the original topic (empty default),
stripped of surrounding whitespace. -/
def forumTopic (topic : Option String) : String :=
  String.mk (pyStripL ("Converted from forum. ".data ++ (topic.getD "").data))

/-- _migrate_channels pass 1, body for one category: name-matched categories
are mapped and skipped (with permissions re-applied when enabled), otherwise
a create call carrying name, type 4 and position is issued. -/
def migrateCategory (exByName : String → Option NamedItem) (migratePerms : Bool)
    (createRes : Except String String) (editRes : Nat → Except String Unit)
    (roleMap : Dict) (catMap : Dict) (cat : Channel) : Dict × List Event :=
  match exByName cat.name with
  | some ex =>
      (dinsert catMap cat.id ex.id,
       [Event.logE ("Skipping category (already exists): " ++ cat.name) "INFO",
        Event.logE ("  Mapped: Discord " ++ cat.id ++ " → Fluxer " ++ ex.id) "INFO"] ++
       (if migratePerms then
          applyChannelPermissions roleMap ex.id editRes cat.permission_overwrites
        else []))
  | none =>
      let evs0 :=
        [Event.logE ("Creating category: " ++ cat.name) "INFO",
         Event.createChannelCall cat.name 4 none none cat.position none none none]
      match createRes with
      | Except.ok cid =>
          (dinsert catMap cat.id cid,
           evs0 ++ [Event.logE "  ✓ Category created" "INFO"] ++
           (if migratePerms then
              applyChannelPermissions roleMap cid editRes cat.permission_overwrites
            else []) ++
           [Event.sleepE])
      | Except.error e =>
          (catMap,
           evs0 ++ [Event.logE ("  Failed to create category " ++ cat.name ++ ": " ++ e) "WARN"])

/-- The category loop of _migrate_channels pass 1. -/
def migrateCatsLoop (exByName : String → Option NamedItem) (migratePerms : Bool)
    (createRes : Nat → Except String String)
    (editRes : Nat → Nat → Except String Unit) (roleMap : Dict) (k : Nat)
    (catMap : Dict) : List Channel → Dict × List Event
  | [] => (catMap, [])
  | c :: cs =>
      let s1 := migrateCategory exByName migratePerms (createRes k) (editRes k) roleMap catMap c
      let s2 := migrateCatsLoop exByName migratePerms createRes editRes roleMap (k + 1) s1.1 cs
      (s2.1, s1.2 ++ s2.2)

/-- _migrate_channels pass 2, body for one channel: categories are skipped
(already handled in pass 1), the parent id is resolved through the category
table, and the channel is dispatched on its raw type code: text and
announcement channels are created as text channels, voice channels as voice
channels, forum channels are converted to text channels with the marked topic
and an unsupported notice logged before the attempt, stage channels, threads
and unknown type codes are skipped with an unsupported notice.  Returns the
updated channel table, the contribution to channel_count, and the events. -/
def migrateLeafChannel (exByName : String → Option NamedItem)
    (catMap : Dict) (roleMap : Dict) (migratePerms : Bool)
    (createRes : Except String String) (editRes : Nat → Except String Unit)
    (chanMap : Dict) (ch : Channel) : Dict × Nat × List Event :=
  if ch.ctype == 4 then (chanMap, 0, [])
  else
    let parent : Option String := ch.parent_id.bind (fun pid => dget catMap pid)
    if ch.ctype == 0 || ch.ctype == 5 then
      match exByName ch.name with
      | some ex =>
          (dinsert chanMap ch.id ex.id, 1,
           [Event.logE ("Skipping text channel (already exists): #" ++ ch.name) "INFO",
            Event.logE ("  Mapped: Discord " ++ ch.id ++ " → Fluxer " ++ ex.id) "INFO"] ++
           (if migratePerms then
              applyChannelPermissions roleMap ex.id editRes ch.permission_overwrites
            else []))
      | none =>
          let evs0 :=
            [Event.logE ("Creating text channel: #" ++ ch.name) "INFO",
             Event.createChannelCall ch.name 0 ch.topic (some ch.nsfw)
               ch.position none none (some parent)]
          match createRes with
          | Except.ok cid =>
              (dinsert chanMap ch.id cid, 1,
               evs0 ++ [Event.logE "  ✓ Text channel created" "INFO"] ++
               (if migratePerms then
                  applyChannelPermissions roleMap cid editRes ch.permission_overwrites
                else []) ++
               [Event.sleepE])
          | Except.error e =>
              (chanMap, 0,
               evs0 ++ [Event.logE ("  Failed to create text channel " ++ ch.name ++ ": " ++ e) "WARN"])
    else if ch.ctype == 2 then
      match exByName ch.name with
      | some ex =>
          (dinsert chanMap ch.id ex.id, 1,
           [Event.logE ("Skipping voice channel (already exists): " ++ ch.name) "INFO",
            Event.logE ("  Mapped: Discord " ++ ch.id ++ " → Fluxer " ++ ex.id) "INFO"] ++
           (if migratePerms then
              applyChannelPermissions roleMap ex.id editRes ch.permission_overwrites
            else []))
      | none =>
          let evs0 :=
            [Event.logE ("Creating voice channel: " ++ ch.name) "INFO",
             Event.createChannelCall ch.name 2 none none ch.position
               (some ch.bitrate) (some ch.user_limit) (some parent)]
          match createRes with
          | Except.ok cid =>
              (dinsert chanMap ch.id cid, 1,
               evs0 ++ [Event.logE "  ✓ Voice channel created" "INFO"] ++
               (if migratePerms then
                  applyChannelPermissions roleMap cid editRes ch.permission_overwrites
                else []) ++
               [Event.sleepE])
          | Except.error e =>
              (chanMap, 0,
               evs0 ++ [Event.logE ("  Failed to create voice channel " ++ ch.name ++ ": " ++ e) "WARN"])
    else if ch.ctype == 15 then
      match exByName ch.name with
      | some ex =>
          (dinsert chanMap ch.id ex.id, 1,
           [Event.logE ("Skipping forum channel (already exists): " ++ ch.name) "INFO",
            Event.logE ("  Mapped: Discord " ++ ch.id ++ " → Fluxer " ++ ex.id) "INFO"] ++
           (if migratePerms then
              applyChannelPermissions roleMap ex.id editRes ch.permission_overwrites
            else []))
      | none =>
          let evs0 :=
            [Event.logE ("Converting forum channel to text: " ++ ch.name) "INFO",
             Event.unsupported "Forum channel"
               ("Converting " ++ ch.name ++ " to text channel"),
             Event.createChannelCall ch.name 0 (some (forumTopic ch.topic))
               (some ch.nsfw) ch.position none none (some parent)]
          match createRes with
          | Except.ok cid =>
              (dinsert chanMap ch.id cid, 1,
               evs0 ++ [Event.logE "  ✓ Converted to text channel" "INFO"] ++
               (if migratePerms then
                  applyChannelPermissions roleMap cid editRes ch.permission_overwrites
                else []) ++
               [Event.sleepE])
          | Except.error e =>
              (chanMap, 0,
               evs0 ++ [Event.logE ("  Failed to convert forum " ++ ch.name ++ ": " ++ e) "WARN"])
    else if ch.ctype == 13 then
      (chanMap, 0,
       [Event.logE ("Skipping stage channel: " ++ ch.name) "INFO",
        Event.unsupported "Stage channel" ("Skipped " ++ ch.name)])
    else if ch.ctype == 10 || ch.ctype == 11 || ch.ctype == 12 then
      (chanMap, 0,
       [Event.logE ("Skipping thread: " ++ ch.name) "INFO",
        Event.unsupported "Thread" ("Skipped " ++ ch.name)])
    else
      (chanMap, 0,
       [Event.logE ("Unknown channel type " ++ toString ch.ctype ++ ": " ++ ch.name) "INFO",
        Event.unsupported ("Channel type: " ++ toString ch.ctype) ("Skipped " ++ ch.name)])

/-- The channel loop of _migrate_channels pass 2. -/
def migrateLeafLoop (exByName : String → Option NamedItem)
    (catMap : Dict) (roleMap : Dict) (migratePerms : Bool)
    (createRes : Nat → Except String String)
    (editRes : Nat → Nat → Except String Unit) (k : Nat) (chanMap : Dict)
    (count : Nat) : List Channel → Dict × Nat × List Event
  | [] => (chanMap, count, [])
  | c :: cs =>
      let s1 := migrateLeafChannel exByName catMap roleMap migratePerms
          (createRes k) (editRes k) chanMap c
      let s2 := migrateLeafLoop exByName catMap roleMap migratePerms createRes
          editRes (k + 1) s1.1 (count + s1.2.1) cs
      (s2.1, s2.2.1, s1.2.2 ++ s2.2.2)

/-- _migrate_channels: build the name lookup over the pre-fetched destination
channels (none or an empty list both give an empty lookup), create the
position-sorted categories, then process all channels sorted by position in a
second pass, and log the final count of successfully handled channels. -/
def migrateChannels (chs : List Channel) (existing : Option (List NamedItem))
    (migratePerms : Bool) (createCatRes : Nat → Except String String)
    (editCatRes : Nat → Nat → Except String Unit)
    (createChRes : Nat → Except String String)
    (editChRes : Nat → Nat → Except String Unit)
    (roleMap : Dict) (catMap : Dict) (chanMap : Dict) :
    Dict × Dict × Nat × List Event :=
  let exByName : String → Option NamedItem :=
    match existing with
    | none => fun _ => none
    | some l => byName l
  let cats := sortByKey (fun c => c.position) (chs.filter (fun c => c.ctype == 4))
  let s1 := migrateCatsLoop exByName migratePerms createCatRes editCatRes roleMap 0 catMap cats
  let s2 := migrateLeafLoop exByName s1.1 roleMap migratePerms createChRes
      editChRes 0 chanMap 0 (sortByKey (fun c => c.position) chs)
  (s1.1, s2.1, s2.2.1,
   [Event.logE "\n--- Migrating Channels ---" "INFO"] ++ s1.2 ++ s2.2.2 ++
   [Event.logE ("✓ Migrated " ++ toString s2.2.1 ++ " channels") "INFO"])

/-- Source asset URL of an emoji, extension selected by the animated flag. -/
def emojiUrl (e : Emoji) : String :=
  "https://cdn.discordapp.com/emojis/" ++ e.id ++ "." ++
  (if e.animated then "gif" else "png") ++ "?size=128"

/-- _migrate_emojis, body of the loop for one emoji: name-matched emojis are
counted as present and skipped (no id mapping exists for emojis), otherwise
the image is downloaded (failure: log and skip) and uploaded under the same
name (failure: log and skip, success: count and sleep). -/
def migrateEmojiStep (exByName : String → Option NamedItem)
    (download : Option Unit) (createRes : Except String Unit) (e : Emoji) :
    Nat × List Event :=
  match exByName e.name with
  | some _ =>
      (1, [Event.logE ("Skipping emoji (already exists): :" ++ e.name ++ ":") "INFO"])
  | none =>
      let evs0 :=
        [Event.logE ("Migrating emoji: :" ++ e.name ++ ":" ++
                     (if e.animated then " (animated)" else "")) "INFO",
         Event.downloadCall (emojiUrl e)]
      match download with
      | none => (0, evs0 ++ [Event.logE "  Failed to download emoji" "WARN"])
      | some _ =>
          match createRes with
          | Except.ok _ =>
              (1, evs0 ++ [Event.createEmojiCall e.name,
                           Event.logE "  ✓ Emoji created" "INFO", Event.sleepE])
          | Except.error er =>
              (0, evs0 ++ [Event.createEmojiCall e.name,
                           Event.logE ("  Failed to create emoji " ++ e.name ++ ": " ++ er) "WARN"])

/-- The emoji loop of _migrate_emojis. -/
def migrateEmojisLoop (exByName : String → Option NamedItem)
    (download : Nat → Option Unit) (createRes : Nat → Except String Unit)
    (k : Nat) (count : Nat) : List Emoji → Nat × List Event
  | [] => (count, [])
  | e :: es =>
      let s1 := migrateEmojiStep exByName (download k) (createRes k) e
      let s2 := migrateEmojisLoop exByName download createRes (k + 1) (count + s1.1) es
      (s2.1, s1.2 ++ s2.2)

/-- _migrate_emojis: early return when the list is empty, otherwise the loop
followed by the count of successfully migrated emojis. -/
def migrateEmojis (emojis : List Emoji) (existing : Option (List NamedItem))
    (download : Nat → Option Unit) (createRes : Nat → Except String Unit) :
    Nat × List Event :=
  let hdr := [Event.logE "\n--- Migrating Emojis ---" "INFO"]
  if emojis.isEmpty then (0, hdr ++ [Event.logE "No emojis to migrate" "INFO"])
  else
    let exByName : String → Option NamedItem :=
      match existing with
      | none => fun _ => none
      | some l => byName l
    let s := migrateEmojisLoop exByName download createRes 0 0 emojis
    (s.1, hdr ++ s.2 ++
          [Event.logE ("✓ Migrated " ++ toString s.1 ++ " emojis") "INFO"])

/-- Outcomes of every network interaction of one migrate_server invocation;
repeated calls of the same kind are indexed by the position of the item that
triggers them, so any pattern of per-call success and failure is expressible. -/
structure Oracle where
  guildIcon : Option Unit
  createGuild : Except String String
  prefetchRoles : Except String (List NamedItem)
  prefetchChannels : Except String (List NamedItem)
  prefetchEmojis : Except String (List NamedItem)
  discordRoles : Except String (List Role)
  discordChannels : Except String (List Channel)
  discordEmojis : Except String (List Emoji)
  refetchRoles : Except String (List NamedItem)
  createRole : Nat → Except String String
  reorder : Except String Unit
  createCat : Nat → Except String String
  editPermsCat : Nat → Nat → Except String Unit
  createChan : Nat → Except String String
  editPermsChan : Nat → Nat → Except String Unit
  download : Nat → Option Unit
  createEmoji : Nat → Except String Unit

/-- The default migration options substituted when migrate_server receives
none. -/
def defaultOptions : List (String × Bool) :=
  [("roles", true), ("channels", true), ("emojis", true), ("permissions", true)]

/-- migration_options.get(key, True). -/
def getOption (opts : List (String × Bool)) (k : String) : Bool :=
  ((opts.find? (fun p => p.1 == k)).map (fun p => p.2)).getD true

/-- The options dict actually used by migrate_server. -/
def effectiveOptions (mopts : Option (List (String × Bool))) : List (String × Bool) :=
  mopts.getD defaultOptions

/-- The partial-sync pre-fetch of existing destination state: the three
option-gated fetches run inside one try; on the first failure everything
gathered so far is discarded, a warning is logged, and all three results are
treated as unknown. -/
def prefetch (opts : List (String × Bool)) (o : Oracle) :
    (Option (List NamedItem) × Option (List NamedItem) × Option (List NamedItem)) × List Event :=
  let hdr := [Event.logE "Fetching existing Fluxer server data for partial sync..." "INFO"]
  let warn := fun (evs : List Event) (e : String) =>
    ((none, none, none),
     hdr ++ evs ++ [Event.logE ("Failed to fetch existing Fluxer data: " ++ e) "WARN"])
  let rolesStep : Except (List Event × String) (Option (List NamedItem) × List Event) :=
    if getOption opts "roles" then
      match o.prefetchRoles with
      | Except.ok rs => Except.ok (some rs, [Event.fetchFluxerRolesCall])
      | Except.error e => Except.error ([Event.fetchFluxerRolesCall], e)
    else Except.ok (none, [])
  match rolesStep with
  | Except.error (evs, e) => warn evs e
  | Except.ok (rs, ev1) =>
      let chansStep : Except (List Event × String) (Option (List NamedItem) × List Event) :=
        if getOption opts "channels" then
          match o.prefetchChannels with
          | Except.ok cs => Except.ok (some cs, [Event.fetchFluxerChannelsCall])
          | Except.error e => Except.error ([Event.fetchFluxerChannelsCall], e)
        else Except.ok (none, [])
      match chansStep with
      | Except.error (evs, e) => warn (ev1 ++ evs) e
      | Except.ok (cs, ev2) =>
          if getOption opts "emojis" then
            match o.prefetchEmojis with
            | Except.ok es =>
                ((rs, cs, some es),
                 hdr ++ ev1 ++ ev2 ++ [Event.fetchFluxerEmojisCall])
            | Except.error e => warn (ev1 ++ ev2 ++ [Event.fetchFluxerEmojisCall]) e
          else ((rs, cs, none), hdr ++ ev1 ++ ev2)

/-- Source URL of the guild icon asset. -/
def iconUrl (gid : String) (iconHash : String) : String :=
  "https://cdn.discordapp.com/icons/" ++ gid ++ "/" ++ iconHash ++ "." ++
  (if iconHash.startsWith "a_" then "gif" else "png") ++ "?size=4096"

/-- Guild resolution of migrate_server: reuse the supplied destination guild
id, or create a new destination guild (optionally after downloading the
source icon); a failed creation escapes. -/
def resolveGuild (g : Guild) (egid : Option String) (psync : Bool) (o : Oracle) :
    Except (List Event × String) (String × List Event) :=
  match egid with
  | some gid =>
      Except.ok (gid,
        [Event.logE ("Using existing Fluxer guild: " ++ gid) "INFO"] ++
        (if psync then
           [Event.logE "⚡ SMART SYNC MODE: Will match by name and add only missing items" "INFO"]
         else
           [Event.logE "(Will add roles and channels, will not delete anything)" "INFO"]))
  | none =>
      let ev0 := [Event.logE ("Creating new guild: " ++ g.name) "INFO"]
      let evIcon :=
        match g.icon with
        | some ih => [Event.logE "Downloading guild icon..." "INFO",
                      Event.downloadCall (iconUrl g.id ih)]
        | none => []
      match o.createGuild with
      | Except.ok fg =>
          Except.ok (fg,
            ev0 ++ evIcon ++ [Event.createGuildCall g.name,
              Event.logE ("✓ Guild created with ID: " ++ fg) "INFO"])
      | Except.error e =>
          Except.error (ev0 ++ evIcon ++ [Event.createGuildCall g.name], e)

/-- One option-gated source-data fetch of migrate_server: disabled stages
leave their list empty without a call, a failed fetch escapes. -/
def fetchStep (enabled : Bool) (res : Except String (List α)) (callEv : Event) :
    Except String (List α × List Event) :=
  if enabled then
    match res with
    | Except.ok xs => Except.ok (xs, [callEv])
    | Except.error e => Except.error e
  else Except.ok ([], [])

/-- The option-gated role stage of migrate_server, updating the role table on
success; an escaped exception of _migrate_roles escapes further. -/
def rolesStageFn (enabled : Bool) (roles : List Role)
    (exr : Option (List NamedItem)) (rf : Except String (List NamedItem))
    (cr : Nat → Except String String) (rr : Except String Unit) (m1 : Maps) :
    Except (List Event × String) (Maps × List Event) :=
  if enabled then
    match migrateRoles roles exr rf cr rr m1.role_id_map with
    | Except.ok (rm, ev) => Except.ok ({ m1 with role_id_map := rm }, ev)
    | Except.error (ev, e) => Except.error (ev, e)
  else Except.ok (m1, [])

/-- The option-gated channel stage of migrate_server, updating the category
and channel tables. -/
def chanStageFn (enabled : Bool) (chans : List Channel)
    (exc : Option (List NamedItem)) (mp : Bool) (o : Oracle) (m2 : Maps) :
    Maps × List Event :=
  if enabled then
    let s := migrateChannels chans exc mp o.createCat o.editPermsCat o.createChan
        o.editPermsChan m2.role_id_map m2.category_id_map m2.channel_id_map
    ({ m2 with category_id_map := s.1, channel_id_map := s.2.1 }, s.2.2.2)
  else (m2, [])

/-- The option-gated emoji stage of migrate_server; it touches no table. -/
def emojiStageFn (enabled : Bool) (emojis : List Emoji)
    (exe : Option (List NamedItem)) (o : Oracle) : List Event :=
  if enabled then (migrateEmojis emojis exe o.download o.createEmoji).2 else []

/-- The partial-sync pre-fetch as performed by migrate_server: only when
partial sync is active and an existing destination guild was supplied. -/
def prefetchStep (psync : Bool) (egid : Option String)
    (opts : List (String × Bool)) (o : Oracle) :
    (Option (List NamedItem) × Option (List NamedItem) × Option (List NamedItem)) × List Event :=
  if psync && egid.isSome then prefetch opts o
  else ((none, none, none), [])

/-- The try block of migrate_server: resolve or create the destination guild,
record its mapping, pre-fetch destination state in partial-sync mode, fetch
the option-gated source data, then run the role, channel and emoji stages in
order.  An error result carries the maps and trace at the moment the
exception escaped. -/
def migrateServerBody (m : Maps) (g : Guild) (egid : Option String)
    (opts : List (String × Bool)) (psync : Bool) (o : Oracle) :
    Except (Maps × List Event × String) (Maps × List Event) :=
  match resolveGuild g egid psync o with
  | Except.error (ev, e) => Except.error (m, ev, e)
  | Except.ok (fgid, evG) =>
      let m1 : Maps := { m with guild_id_map := dinsert m.guild_id_map g.id fgid }
      let pf := prefetchStep psync egid opts o
      let evP := evG ++ pf.2 ++ [Event.logE "Fetching server data from Discord..." "INFO"]
      match fetchStep (getOption opts "roles") o.discordRoles
          Event.fetchDiscordRolesCall with
      | Except.error e => Except.error (m1, evP, e)
      | Except.ok (roles, evFR) =>
          match fetchStep (getOption opts "channels" || getOption opts "permissions")
              o.discordChannels Event.fetchDiscordChannelsCall with
          | Except.error e => Except.error (m1, evP ++ evFR, e)
          | Except.ok (chans, evFC) =>
              match fetchStep (getOption opts "emojis") o.discordEmojis
                  Event.fetchDiscordEmojisCall with
              | Except.error e => Except.error (m1, evP ++ evFR ++ evFC, e)
              | Except.ok (emojis, evFE) =>
                  let evF := evP ++ evFR ++ evFC ++ evFE
                  match rolesStageFn (getOption opts "roles") roles pf.1.1
                      o.refetchRoles o.createRole o.reorder m1 with
                  | Except.error (ev, e) => Except.error (m1, evF ++ ev, e)
                  | Except.ok (m2, evR) =>
                      let cs := chanStageFn (getOption opts "channels") chans
                          pf.1.2.1 (getOption opts "permissions") o m2
                      let evE := emojiStageFn (getOption opts "emojis") emojis
                          pf.1.2.2 o
                      Except.ok (cs.1, evF ++ evR ++ cs.2 ++ evE)

/-- migrate_server: the options default, the opening banner, the try block
and the except handler converting any escaped exception into a logged failure
and a false result. -/
def migrateServer (m : Maps) (g : Guild) (egid : Option String)
    (mopts : Option (List (String × Bool))) (psync : Bool) (o : Oracle) :
    Bool × Maps × List Event :=
  let pre := [Event.logE ("\n=== Migrating Server: " ++ g.name ++ " ===") "INFO"]
  match migrateServerBody m g egid (effectiveOptions mopts) psync o with
  | Except.ok (m1, ev) =>
      (true, m1,
       pre ++ ev ++
       [Event.logE ("✓ Server " ++ g.name ++ " migrated successfully!") "INFO"])
  | Except.error (m1, ev, e) =>
      (false, m1, pre ++ ev ++ [Event.logE ("Server migration failed: " ++ e) "ERROR"])

/-- One entry of a multi-guild batch: the guild together with the interactive
choices made for it (destination guild, options, partial-sync flag). -/
structure GuildJob where
  guild : Guild
  egid : Option String
  mopts : Option (List (String × Bool))
  psync : Bool

/-- The loop of MigrationOrchestrator.migrate_servers: one ServerMigrator
instance is created for the whole batch, so the same four mapping tables are
threaded through every guild of the batch; a short sleep separates guilds. -/
def migrateServersFrom (oracles : Nat → Oracle) (k : Nat) (m : Maps) :
    List GuildJob → Maps × List Event
  | [] => (m, [])
  | j :: js =>
      let s1 := migrateServer m j.guild j.egid j.mopts j.psync (oracles k)
      let s2 := migrateServersFrom oracles (k + 1) s1.2.1 js
      (s2.1, s1.2.2 ++ [Event.sleepE] ++ s2.2)

/-- migrate_servers: the batch starts from the freshly constructed migrator,
whose four tables are empty. -/
def migrateServers (jobs : List GuildJob) (oracles : Nat → Oracle) :
    Maps × List Event :=
  migrateServersFrom oracles 0 emptyMaps jobs

/-- Recognizer for edit-permissions calls in a trace. -/
def isEditCall : Event → Bool
  | Event.editPermsCall _ _ _ _ => true
  | _ => false

/-- Recognizer for channel-creation calls in a trace. -/
def isCreateCall : Event → Bool
  | Event.createChannelCall _ _ _ _ _ _ _ _ => true
  | _ => false

/-- Recognizer for role-creation calls in a trace. -/
def isRoleCreateCall : Event → Bool
  | Event.createRoleCall _ _ _ _ _ => true
  | _ => false

/-- The channel-creation calls of a trace. -/
def createCalls (evs : List Event) : List Event := evs.filter isCreateCall

/-- The role-creation calls of a trace. -/
def roleCreateCalls (evs : List Event) : List Event := evs.filter isRoleCreateCall

theorem dget_dinsert (d : Dict) (k v k2 : String) :
    dget (dinsert d k v) k2 = if k2 = k then some v else dget d k2 := by
  have hfil : ∀ (d : Dict), ¬ k2 = k →
      dget (d.filter (fun p => !(p.1 == k))) k2 = dget d k2 := by
    intro d hne
    have hne' : ¬ k = k2 := fun hh => hne hh.symm
    induction d with
    | nil => rfl
    | cons p d ih =>
      by_cases hp : p.1 = k
      · have h2 : ¬ p.1 = k2 := by
          intro h; exact hne (h ▸ hp)
        simp [List.filter_cons, hp, dget, h2, ih, hne, hne']
      · simp only [List.filter_cons]
        by_cases h2 : p.1 = k2
        · simp [hp, dget, h2, hne, hne']
        · simp [hp, dget, h2, ih]
  unfold dinsert
  by_cases h : k2 = k
  · simp [dget, h]
  · simp only [dget]
    have : (k == k2) = false := by
      simp; intro hh; exact h hh.symm
    simp [this, h, hfil d h]

theorem countKey_dinsert (d : Dict) (k v k2 : String) :
    countKey (dinsert d k v) k2 = if k2 = k then 1 else countKey d k2 := by
  have hnone : ∀ (d : Dict),
      (d.filter (fun p => !(p.1 == k))).filter (fun p => p.1 == k) = [] := by
    intro d
    induction d with
    | nil => rfl
    | cons p d ih =>
      by_cases hp : p.1 = k
      · simp [List.filter_cons, hp, ih]
      · simp [List.filter_cons, hp, ih]
  have hsame : ∀ (d : Dict), ¬ k2 = k →
      (d.filter (fun p => !(p.1 == k))).filter (fun p => p.1 == k2) =
        d.filter (fun p => p.1 == k2) := by
    intro d hne
    have hne' : ¬ k = k2 := fun hh => hne hh.symm
    induction d with
    | nil => rfl
    | cons p d ih =>
      by_cases hp : p.1 = k
      · have h2 : ¬ p.1 = k2 := by intro h; exact hne (h ▸ hp)
        simp [List.filter_cons, hp, h2, ih, hne, hne']
      · by_cases h2 : p.1 = k2
        · simp [List.filter_cons, hp, h2, ih, hne, hne']
        · simp [List.filter_cons, hp, h2, ih]
  unfold dinsert countKey
  by_cases h : k2 = k
  · subst h
    simp [List.filter_cons, hnone d]
  · have : (k == k2) = false := by
      simp; intro hh; exact h hh.symm
    simp [List.filter_cons, this, h, hsame d h]

theorem mem_insertByKey (key : α → Int) (x a : α) (l : List α) :
    a ∈ insertByKey key x l ↔ a = x ∨ a ∈ l := by
  induction l with
  | nil => simp [insertByKey]
  | cons y ys ih =>
    simp only [insertByKey]
    split
    · simp
    · simp [ih]
      tauto

theorem mem_sortByKey (key : α → Int) (a : α) (l : List α) :
    a ∈ sortByKey key l ↔ a ∈ l := by
  induction l with
  | nil => simp [sortByKey]
  | cons x xs ih => simp [sortByKey, mem_insertByKey, ih]

/-- The permission-overwrite loop never issues channel-creation calls. -/
theorem applyOverwrite_no_create (roleMap : Dict) (chId : String)
    (res : Except String Unit) (ow : Overwrite) :
    createCalls (applyOverwrite roleMap chId res ow) = [] := by
  unfold applyOverwrite createCalls
  split
  · rfl
  · cases hg : dget roleMap ow.id with
    | none => simp [hg]
    | some fid => cases res <;> simp [hg, isCreateCall]

theorem applyChPermsAux_no_create (roleMap : Dict) (chId : String)
    (er : Nat → Except String Unit) (k : Nat) (ows : List Overwrite) :
    createCalls (applyChPermsAux roleMap chId er k ows) = [] := by
  induction ows generalizing k with
  | nil => rfl
  | cons o os ih =>
    have h1 := applyOverwrite_no_create roleMap chId (er k) o
    simp only [applyChPermsAux, createCalls, List.filter_append] at *
    simp [h1, ih]

theorem applyChPerms_no_create (roleMap : Dict) (chId : String)
    (er : Nat → Except String Unit) (ows : List Overwrite) :
    createCalls (applyChannelPermissions roleMap chId er ows) = [] :=
  applyChPermsAux_no_create roleMap chId er 0 ows

/-- The overwrite loop processes every overwrite independently: its trace is
the concatenation of the per-overwrite traces, in order. -/
theorem applyChPermsAux_eq_join (roleMap : Dict) (chId : String)
    (er : Nat → Except String Unit) (k : Nat) (ows : List Overwrite) :
    applyChPermsAux roleMap chId er k ows =
      ((List.enumFrom k ows).map
        (fun p => applyOverwrite roleMap chId (er p.1) p.2)).flatten := by
  induction ows generalizing k with
  | nil => rfl
  | cons o os ih => simp [applyChPermsAux, List.enumFrom_cons, ih]

/-- The forum-conversion topic always carries the fixed marker as a prefix. -/
theorem forumTopic_marker (t : Option String) :
    ∃ rest, (forumTopic t).data = forumMarker.data ++ rest := by
  have hm1 : "Converted from forum. ".data = forumMarker.data ++ [' '] := rfl
  have hm3 : List.dropWhile Char.isWhitespace "Converted from forum. ".data
      = "Converted from forum. ".data := rfl
  have hm4 : List.dropWhile Char.isWhitespace "Converted from forum. ".data.reverse
      = forumMarker.data.reverse := rfl
  have hne : ("Converted from forum. ".data).isEmpty = false := rfl
  show ∃ rest,
    pyStripL ("Converted from forum. ".data ++ ((t.getD "")).data) =
      forumMarker.data ++ rest
  unfold pyStripL
  rw [List.dropWhile_append, hm3, hne]
  simp only [Bool.false_eq_true, if_false, List.reverse_append]
  rw [List.dropWhile_append]
  by_cases hA : (List.dropWhile Char.isWhitespace ((t.getD "")).data.reverse).isEmpty = true
  · rw [if_pos hA, hm4, List.reverse_reverse]
    exact ⟨[], by simp⟩
  · rw [if_neg hA, List.reverse_append, List.reverse_reverse]
    exact ⟨' ' :: (List.dropWhile Char.isWhitespace ((t.getD "")).data.reverse).reverse,
      rfl⟩

/-- C1: type dispatch of the second channel pass in create mode (no
pre-fetched destination channels, so the name lookup is empty): types 0 and 5
yield exactly one destination text-channel creation call, type 2 exactly one
voice-channel creation call, type 15 exactly one text-channel creation call
whose topic carries the fixed forum-conversion marker as prefix together with
an unsupported-feature notice that is logged regardless of the creation
outcome, type 13 and types 10, 11, 12 yield no creation call and a logged
notice, and any other type code yields no creation call and a notice carrying
the raw type code. -/
theorem channel_type_dispatch (catMap roleMap chanMap : Dict) (mp : Bool)
    (cres : Except String String) (er : Nat → Except String Unit) (ch : Channel) :
    (ch.ctype = 0 ∨ ch.ctype = 5 →
      createCalls (migrateLeafChannel (fun _ => none) catMap roleMap mp cres er chanMap ch).2.2 =
        [Event.createChannelCall ch.name 0 ch.topic (some ch.nsfw) ch.position
          none none (some (ch.parent_id.bind (dget catMap)))])
    ∧ (ch.ctype = 2 →
      createCalls (migrateLeafChannel (fun _ => none) catMap roleMap mp cres er chanMap ch).2.2 =
        [Event.createChannelCall ch.name 2 none none ch.position
          (some ch.bitrate) (some ch.user_limit) (some (ch.parent_id.bind (dget catMap)))])
    ∧ (ch.ctype = 15 →
      createCalls (migrateLeafChannel (fun _ => none) catMap roleMap mp cres er chanMap ch).2.2 =
        [Event.createChannelCall ch.name 0 (some (forumTopic ch.topic)) (some ch.nsfw)
          ch.position none none (some (ch.parent_id.bind (dget catMap)))]
      ∧ (∃ rest, (forumTopic ch.topic).data = forumMarker.data ++ rest)
      ∧ Event.unsupported "Forum channel" ("Converting " ++ ch.name ++ " to text channel")
          ∈ (migrateLeafChannel (fun _ => none) catMap roleMap mp cres er chanMap ch).2.2)
    ∧ (ch.ctype = 13 →
      createCalls (migrateLeafChannel (fun _ => none) catMap roleMap mp cres er chanMap ch).2.2 = []
      ∧ Event.unsupported "Stage channel" ("Skipped " ++ ch.name)
          ∈ (migrateLeafChannel (fun _ => none) catMap roleMap mp cres er chanMap ch).2.2)
    ∧ (ch.ctype = 10 ∨ ch.ctype = 11 ∨ ch.ctype = 12 →
      createCalls (migrateLeafChannel (fun _ => none) catMap roleMap mp cres er chanMap ch).2.2 = []
      ∧ Event.unsupported "Thread" ("Skipped " ++ ch.name)
          ∈ (migrateLeafChannel (fun _ => none) catMap roleMap mp cres er chanMap ch).2.2)
    ∧ (¬ch.ctype = 0 → ¬ch.ctype = 2 → ¬ch.ctype = 4 → ¬ch.ctype = 5 →
       ¬ch.ctype = 10 → ¬ch.ctype = 11 → ¬ch.ctype = 12 → ¬ch.ctype = 13 →
       ¬ch.ctype = 15 →
      createCalls (migrateLeafChannel (fun _ => none) catMap roleMap mp cres er chanMap ch).2.2 = []
      ∧ Event.unsupported ("Channel type: " ++ toString ch.ctype) ("Skipped " ++ ch.name)
          ∈ (migrateLeafChannel (fun _ => none) catMap roleMap mp cres er chanMap ch).2.2) := by
  have hp := fun cid => applyChPerms_no_create roleMap cid er ch.permission_overwrites
  simp only [createCalls] at hp ⊢
  refine ⟨?_, ?_, ?_, ?_, ?_, ?_⟩
  · rintro (h | h) <;>
    · cases cres with
      | ok cid =>
          cases mp <;>
            simp [migrateLeafChannel, h, List.filter_append, isCreateCall, hp]
      | error e =>
          simp [migrateLeafChannel, h, List.filter_append, isCreateCall]
  · intro h
    cases cres with
    | ok cid =>
        cases mp <;>
          simp [migrateLeafChannel, h, List.filter_append, isCreateCall, hp]
    | error e =>
        simp [migrateLeafChannel, h, List.filter_append, isCreateCall]
  · intro h
    refine ⟨?_, forumTopic_marker ch.topic, ?_⟩ <;>
    · cases cres with
      | ok cid =>
          cases mp <;>
            simp [migrateLeafChannel, h, List.filter_append, isCreateCall, hp]
      | error e =>
          simp [migrateLeafChannel, h, List.filter_append, isCreateCall]
  · intro h
    simp [migrateLeafChannel, h, isCreateCall]
  · rintro (h | h | h) <;> simp [migrateLeafChannel, h, isCreateCall]
  · intro h0 h2 h4 h5 h10 h11 h12 h13 h15
    simp [migrateLeafChannel, h0, h2, h4, h5, h10, h11, h12, h13, h15, isCreateCall]

/-- Witness for channel_type_dispatch: one concrete channel per type class,
processed in create mode with a fixed oracle. -/
theorem channel_type_dispatch_witness :
    (createCalls (migrateLeafChannel (fun _ => none) [] [] true (Except.ok "x")
        (fun _ => Except.ok ()) [] ⟨"c1", "general", 0, 0, none, none, false, 64000, 0, []⟩).2.2 =
      [Event.createChannelCall "general" 0 none (some false) 0 none none (some none)])
    ∧ (createCalls (migrateLeafChannel (fun _ => none) [] [] true (Except.ok "x")
        (fun _ => Except.ok ()) [] ⟨"c2", "talk", 2, 0, none, none, false, 64000, 0, []⟩).2.2 =
      [Event.createChannelCall "talk" 2 none none 0 (some 64000) (some 0) (some none)])
    ∧ (createCalls (migrateLeafChannel (fun _ => none) [] [] true (Except.ok "x")
        (fun _ => Except.ok ()) [] ⟨"c3", "forum", 15, 0, none, some "t", false, 64000, 0, []⟩).2.2 =
      [Event.createChannelCall "forum" 0 (some (forumTopic (some "t"))) (some false)
        0 none none (some none)]
      ∧ (∃ rest, (forumTopic (some "t")).data = forumMarker.data ++ rest)
      ∧ Event.unsupported "Forum channel" "Converting forum to text channel"
          ∈ (migrateLeafChannel (fun _ => none) [] [] true (Except.ok "x")
              (fun _ => Except.ok ()) [] ⟨"c3", "forum", 15, 0, none, some "t", false, 64000, 0, []⟩).2.2)
    ∧ (createCalls (migrateLeafChannel (fun _ => none) [] [] true (Except.ok "x")
        (fun _ => Except.ok ()) [] ⟨"c4", "stage", 13, 0, none, none, false, 64000, 0, []⟩).2.2 = []
      ∧ Event.unsupported "Stage channel" "Skipped stage"
          ∈ (migrateLeafChannel (fun _ => none) [] [] true (Except.ok "x")
              (fun _ => Except.ok ()) [] ⟨"c4", "stage", 13, 0, none, none, false, 64000, 0, []⟩).2.2)
    ∧ (createCalls (migrateLeafChannel (fun _ => none) [] [] true (Except.ok "x")
        (fun _ => Except.ok ()) [] ⟨"c5", "thread", 11, 0, none, none, false, 64000, 0, []⟩).2.2 = []
      ∧ Event.unsupported "Thread" "Skipped thread"
          ∈ (migrateLeafChannel (fun _ => none) [] [] true (Except.ok "x")
              (fun _ => Except.ok ()) [] ⟨"c5", "thread", 11, 0, none, none, false, 64000, 0, []⟩).2.2)
    ∧ (createCalls (migrateLeafChannel (fun _ => none) [] [] true (Except.ok "x")
        (fun _ => Except.ok ()) [] ⟨"c6", "odd", 99, 0, none, none, false, 64000, 0, []⟩).2.2 = []
      ∧ Event.unsupported ("Channel type: " ++ toString 99) "Skipped odd"
          ∈ (migrateLeafChannel (fun _ => none) [] [] true (Except.ok "x")
              (fun _ => Except.ok ()) [] ⟨"c6", "odd", 99, 0, none, none, false, 64000, 0, []⟩).2.2) :=
  ⟨(channel_type_dispatch [] [] [] true (Except.ok "x") (fun _ => Except.ok ())
      ⟨"c1", "general", 0, 0, none, none, false, 64000, 0, []⟩).1 (Or.inl rfl),
   (channel_type_dispatch [] [] [] true (Except.ok "x") (fun _ => Except.ok ())
      ⟨"c2", "talk", 2, 0, none, none, false, 64000, 0, []⟩).2.1 rfl,
   (channel_type_dispatch [] [] [] true (Except.ok "x") (fun _ => Except.ok ())
      ⟨"c3", "forum", 15, 0, none, some "t", false, 64000, 0, []⟩).2.2.1 rfl,
   (channel_type_dispatch [] [] [] true (Except.ok "x") (fun _ => Except.ok ())
      ⟨"c4", "stage", 13, 0, none, none, false, 64000, 0, []⟩).2.2.2.1 rfl,
   (channel_type_dispatch [] [] [] true (Except.ok "x") (fun _ => Except.ok ())
      ⟨"c5", "thread", 11, 0, none, none, false, 64000, 0, []⟩).2.2.2.2.1 (Or.inr (Or.inl rfl)),
   (channel_type_dispatch [] [] [] true (Except.ok "x") (fun _ => Except.ok ())
      ⟨"c6", "odd", 99, 0, none, none, false, 64000, 0, []⟩).2.2.2.2.2
     (by decide) (by decide) (by decide) (by decide) (by decide) (by decide)
     (by decide) (by decide) (by decide)⟩

/-- C5: the overwrite loop of _apply_channel_permissions processes each
overwrite independently (the trace is the ordered concatenation of
per-overwrite blocks, so one failing edit call never aborts the remaining
overwrites), and each overwrite is handled as follows: a member-targeted
overwrite issues no edit call, a role overwrite whose id is absent from the
role table issues no edit call, and a mapped role overwrite issues exactly
one edit call with the mapped destination role id and the unmodified allow
and deny masks, whether that call succeeds or fails. -/
theorem overwrite_application_spec (roleMap : Dict) (chId : String)
    (er : Nat → Except String Unit) (ows : List Overwrite) :
    applyChannelPermissions roleMap chId er ows =
      ((List.enumFrom 0 ows).map
        (fun p => applyOverwrite roleMap chId (er p.1) p.2)).flatten
    ∧ ∀ (res : Except String Unit) (ow : Overwrite),
        (¬ ow.otype = 0 → applyOverwrite roleMap chId res ow = [])
        ∧ (ow.otype = 0 → dget roleMap ow.id = none →
            applyOverwrite roleMap chId res ow = [])
        ∧ (∀ fid, ow.otype = 0 → dget roleMap ow.id = some fid →
            (applyOverwrite roleMap chId res ow).filter isEditCall =
              [Event.editPermsCall chId fid ow.allow ow.deny]) := by
  refine ⟨applyChPermsAux_eq_join roleMap chId er 0 ows, ?_⟩
  intro res ow
  refine ⟨?_, ?_, ?_⟩
  · intro h; unfold applyOverwrite; simp [h]
  · intro h hg; unfold applyOverwrite; simp [h, hg]
  · intro fid h hg
    unfold applyOverwrite
    cases res <;> simp [h, hg, isEditCall]

/-- Witness for overwrite_application_spec: a mapped role overwrite with a
failing edit call, a member overwrite and an unmapped role overwrite. -/
theorem overwrite_application_witness :
    ((applyOverwrite [("r1", "f1")] "c1" (Except.error "x") ⟨"r1", 0, 3, 5⟩).filter isEditCall =
      [Event.editPermsCall "c1" "f1" 3 5])
    ∧ applyOverwrite [("r1", "f1")] "c1" (Except.ok ()) ⟨"u1", 1, 3, 5⟩ = []
    ∧ applyOverwrite [("r1", "f1")] "c1" (Except.ok ()) ⟨"r2", 0, 3, 5⟩ = [] :=
  ⟨((overwrite_application_spec [("r1", "f1")] "c1" (fun _ => Except.ok ()) []).2
      (Except.error "x") ⟨"r1", 0, 3, 5⟩).2.2 "f1" rfl rfl,
   ((overwrite_application_spec [("r1", "f1")] "c1" (fun _ => Except.ok ()) []).2
      (Except.ok ()) ⟨"u1", 1, 3, 5⟩).1 (by decide),
   ((overwrite_application_spec [("r1", "f1")] "c1" (fun _ => Except.ok ()) []).2
      (Except.ok ()) ⟨"r2", 0, 3, 5⟩).2.1 rfl rfl⟩

/-- A fully successful oracle: every call returns, creations yield fixed ids. -/
def okOracle : Oracle where
  guildIcon := some ()
  createGuild := Except.ok "fg"
  prefetchRoles := Except.ok []
  prefetchChannels := Except.ok []
  prefetchEmojis := Except.ok []
  discordRoles := Except.ok []
  discordChannels := Except.ok []
  discordEmojis := Except.ok []
  refetchRoles := Except.ok []
  createRole := fun k => Except.ok ("fr" ++ toString k)
  reorder := Except.ok ()
  createCat := fun k => Except.ok ("fc" ++ toString k)
  editPermsCat := fun _ _ => Except.ok ()
  createChan := fun k => Except.ok ("fh" ++ toString k)
  editPermsChan := fun _ _ => Except.ok ()
  download := fun _ => some ()
  createEmoji := fun _ => Except.ok ()

/-- C10: the stage toggles consumed by migrate_server default to enabled:
with no options dict every toggle reads true, with a supplied dict an absent
key reads true, and a toggle reads false exactly when the dict binds it to an
explicit false; consequently a run with no options dict reaches all three
stage bodies (their headers appear in the trace). -/
theorem options_defaulting :
    (∀ k, k ∈ ["roles", "channels", "emojis", "permissions"] →
        getOption (effectiveOptions none) k = true)
    ∧ (∀ (opts : List (String × Bool)) (k : String),
        opts.find? (fun p => p.1 == k) = none →
        getOption (effectiveOptions (some opts)) k = true)
    ∧ (∀ (opts : List (String × Bool)) (k : String),
        getOption (effectiveOptions (some opts)) k = false ↔
          (opts.find? (fun p => p.1 == k)).map (fun p => p.2) = some false)
    ∧ (Event.logE "\n--- Migrating Roles ---" "INFO"
         ∈ (migrateServer emptyMaps ⟨"g1", "G", none⟩ (some "fx") none false okOracle).2.2
       ∧ Event.logE "\n--- Migrating Channels ---" "INFO"
         ∈ (migrateServer emptyMaps ⟨"g1", "G", none⟩ (some "fx") none false okOracle).2.2
       ∧ Event.logE "\n--- Migrating Emojis ---" "INFO"
         ∈ (migrateServer emptyMaps ⟨"g1", "G", none⟩ (some "fx") none false okOracle).2.2) := by
  refine ⟨?_, ?_, ?_, by decide, by decide, by decide⟩
  · intro k hk
    fin_cases hk <;> decide
  · intro opts k h
    simp [getOption, effectiveOptions, h]
  · intro opts k
    cases hf : opts.find? (fun p => p.1 == k) with
    | none => simp [getOption, effectiveOptions, hf]
    | some p => simp [getOption, effectiveOptions, hf]

/-- Witness for options_defaulting: a dict disabling only channels leaves
roles enabled, and the empty-options default enables emojis. -/
theorem options_defaulting_witness :
    getOption (effectiveOptions (some [("channels", false)])) "roles" = true
    ∧ getOption (effectiveOptions none) "emojis" = true :=
  ⟨options_defaulting.2.1 [("channels", false)] "roles" rfl,
   options_defaulting.1 "emojis" (by decide)⟩

/-- Every role-creation call issued by the role loop carries the name of a
role of the processed list. -/
theorem migrateRolesLoop_create_name (exB : String → Option NamedItem)
    (cr : Nat → Except String String) (k : Nat) (m : Dict)
    (pos : List (String × Int)) (L : List Role) :
    ∀ n pm c h mb,
      Event.createRoleCall n pm c h mb ∈ (migrateRolesLoop exB cr k m pos L).2.2 →
      ∃ r ∈ L, r.name = n := by
  induction L generalizing k m pos with
  | nil => intro n pm c h mb hmem; simp [migrateRolesLoop] at hmem
  | cons r rs ih =>
    intro n pm c h mb hmem
    simp only [migrateRolesLoop, List.mem_append] at hmem
    rcases hmem with hmem | hmem
    · unfold migrateRoleStep at hmem
      rcases hx : exB r.name with _ | ex
      · rcases hc : cr k with e | fid
        all_goals
          simp [hx, hc] at hmem
          exact ⟨r, by simp, hmem.1.symm⟩
      · simp [hx] at hmem
    · obtain ⟨r2, hr2, hname⟩ := ih (k + 1) _ _ n pm c h mb hmem
      exact ⟨r2, by simp [hr2], hname⟩

/-- The reorder helper issues no role-creation calls. -/
theorem reorderRolesEv_no_create (rr : Except String Unit)
    (pos : List (String × Int)) :
    ∀ n pm c h mb, Event.createRoleCall n pm c h mb ∉ reorderRolesEv rr pos := by
  intro n pm c h mb
  unfold reorderRolesEv
  split
  · simp
  · cases rr <;> simp

/-- A table with exactly one binding of a key keeps exactly one binding of it
through the role loop. -/
theorem migrateRolesLoop_countKey (exB : String → Option NamedItem)
    (cr : Nat → Except String String) (k : Nat) (m : Dict)
    (pos : List (String × Int)) (L : List Role) (k2 : String)
    (h : countKey m k2 = 1) :
    countKey (migrateRolesLoop exB cr k m pos L).1 k2 = 1 := by
  induction L generalizing k m pos with
  | nil => simpa [migrateRolesLoop]
  | cons r rs ih =>
    simp only [migrateRolesLoop]
    apply ih
    unfold migrateRoleStep
    rcases hx : exB r.name with _ | ex
    · rcases hc : cr k with e | fid
      · simpa [hx, hc]
      · simp only [hx, hc]
        rw [countKey_dinsert]
        split <;> simp [h]
    · simp only [hx]
      rw [countKey_dinsert]
      split <;> simp [h]

/-- The role loop does not touch bindings of keys that are no processed
role's id. -/
theorem migrateRolesLoop_dget_ne (exB : String → Option NamedItem)
    (cr : Nat → Except String String) (k : Nat) (m : Dict)
    (pos : List (String × Int)) (L : List Role) (k2 : String)
    (h : ∀ r ∈ L, ¬ r.id = k2) :
    dget (migrateRolesLoop exB cr k m pos L).1 k2 = dget m k2 := by
  induction L generalizing k m pos with
  | nil => simp [migrateRolesLoop]
  | cons r rs ih =>
    simp only [migrateRolesLoop]
    rw [ih _ _ _ (fun r2 hr2 => h r2 (by simp [hr2]))]
    have hne : ¬ k2 = r.id := fun hh => h r (by simp) hh.symm
    unfold migrateRoleStep
    rcases hx : exB r.name with _ | ex
    · rcases hc : cr k with e | fid
      · simp [hx, hc]
      · simp only [hx, hc]
        rw [dget_dinsert]
        simp [hne]
    · simp only [hx]
      rw [dget_dinsert]
      simp [hne]

/-- C9: the default role is never passed to a role-creation call (in any
run), and running role migration twice against the same destination yields
exactly one mapping entry for the default role's source id, bound to the same
destination id both times. -/
theorem default_role_idempotent (roles : List Role) (ex : List NamedItem)
    (cr1 cr2 : Nat → Except String String) (rr1 rr2 : Except String Unit)
    (er : Role) (fe : NamedItem)
    (hfind : roles.find? (fun r => r.name == "@everyone") = some er)
    (hex : byName ex "@everyone" = some fe)
    (hid : ∀ r ∈ roles, ¬ r.name = "@everyone" → ¬ r.id = er.id) :
    (∀ (cr : Nat → Except String String) (rr : Except String Unit) (m : Dict)
       (n : String) (pm : Int) (c : Nat) (ho mb : Bool),
        Event.createRoleCall n pm c ho mb ∈ (migrateRolesCore roles ex cr rr m).2 →
        ¬ n = "@everyone")
    ∧ countKey (migrateRolesCore roles ex cr2 rr2
        (migrateRolesCore roles ex cr1 rr1 []).1).1 er.id = 1
    ∧ dget (migrateRolesCore roles ex cr1 rr1 []).1 er.id = some fe.id
    ∧ dget (migrateRolesCore roles ex cr2 rr2
        (migrateRolesCore roles ex cr1 rr1 []).1).1 er.id = some fe.id := by
  have hone : ∀ (cr : Nat → Except String String) (rr : Except String Unit) (m : Dict),
      countKey (migrateRolesCore roles ex cr rr m).1 er.id = 1 := by
    intro cr rr m
    simp only [migrateRolesCore, hfind, hex]
    apply migrateRolesLoop_countKey
    rw [countKey_dinsert]
    simp
  have hval : ∀ (cr : Nat → Except String String) (rr : Except String Unit) (m : Dict),
      dget (migrateRolesCore roles ex cr rr m).1 er.id = some fe.id := by
    intro cr rr m
    simp only [migrateRolesCore, hfind, hex]
    rw [migrateRolesLoop_dget_ne]
    · rw [dget_dinsert]; simp
    · intro r hr
      rw [mem_sortByKey] at hr
      rw [List.mem_filter] at hr
      exact hid r hr.1 (by simpa using hr.2)
  refine ⟨?_, hone cr2 rr2 _, hval cr1 rr1 [], hval cr2 rr2 _⟩
  intro cr rr m n pm c ho mb hmem
  simp only [migrateRolesCore, hfind, hex, List.mem_append] at hmem
  rcases hmem with ((hmem | hmem) | hmem) | hmem
  · simp at hmem
  · obtain ⟨r, hr, hname⟩ := migrateRolesLoop_create_name _ _ _ _ _ _ n pm c ho mb hmem
    rw [mem_sortByKey, List.mem_filter] at hr
    intro hn
    rw [hn] at hname
    simp [hname] at hr
  · simp at hmem
  · exact absurd hmem (reorderRolesEv_no_create rr _ n pm c ho mb)

/-- Witness for default_role_idempotent: a two-role set with the default
role, migrated twice against a destination holding only its intrinsic
default role. -/
theorem default_role_idempotent_witness :
    countKey (migrateRolesCore
        [⟨"re", "@everyone", 0, 0, 0, false, false⟩,
         ⟨"ra", "Admin", 1, 0, 8, false, false⟩]
        [⟨"fe", "@everyone"⟩] (fun k => Except.ok ("f" ++ toString k)) (Except.ok ())
        (migrateRolesCore
          [⟨"re", "@everyone", 0, 0, 0, false, false⟩,
           ⟨"ra", "Admin", 1, 0, 8, false, false⟩]
          [⟨"fe", "@everyone"⟩] (fun k => Except.ok ("f" ++ toString k)) (Except.ok ())
          []).1).1 "re" = 1
    ∧ dget (migrateRolesCore
        [⟨"re", "@everyone", 0, 0, 0, false, false⟩,
         ⟨"ra", "Admin", 1, 0, 8, false, false⟩]
        [⟨"fe", "@everyone"⟩] (fun k => Except.ok ("f" ++ toString k)) (Except.ok ())
        (migrateRolesCore
          [⟨"re", "@everyone", 0, 0, 0, false, false⟩,
           ⟨"ra", "Admin", 1, 0, 8, false, false⟩]
          [⟨"fe", "@everyone"⟩] (fun k => Except.ok ("f" ++ toString k)) (Except.ok ())
          []).1).1 "re" = some "fe" := by
  have hp := default_role_idempotent
    [⟨"re", "@everyone", 0, 0, 0, false, false⟩,
     ⟨"ra", "Admin", 1, 0, 8, false, false⟩]
    [⟨"fe", "@everyone"⟩]
    (fun k => Except.ok ("f" ++ toString k)) (fun k => Except.ok ("f" ++ toString k))
    (Except.ok ()) (Except.ok ())
    ⟨"re", "@everyone", 0, 0, 0, false, false⟩ ⟨"fe", "@everyone"⟩
    (by decide) (by decide) (by decide)
  exact ⟨hp.2.1, hp.2.2.2⟩

/-- C2, observed divergence: with five non-default roles whose second create
call fails, the loop still attempts all five creations and records four
mappings, yet the final count line reports the length of the attempted list
(five), not the number of successful creations (four). -/
theorem role_count_reports_attempted :
    (roleCreateCalls (migrateRolesCore
        [⟨"r1", "Role1", 1, 0, 0, false, false⟩, ⟨"r2", "Role2", 2, 0, 0, false, false⟩,
         ⟨"r3", "Role3", 3, 0, 0, false, false⟩, ⟨"r4", "Role4", 4, 0, 0, false, false⟩,
         ⟨"r5", "Role5", 5, 0, 0, false, false⟩] []
        (fun k => if k == 1 then Except.error "boom" else Except.ok ("f" ++ toString k))
        (Except.ok ()) []).2).length = 5
    ∧ (migrateRolesCore
        [⟨"r1", "Role1", 1, 0, 0, false, false⟩, ⟨"r2", "Role2", 2, 0, 0, false, false⟩,
         ⟨"r3", "Role3", 3, 0, 0, false, false⟩, ⟨"r4", "Role4", 4, 0, 0, false, false⟩,
         ⟨"r5", "Role5", 5, 0, 0, false, false⟩] []
        (fun k => if k == 1 then Except.error "boom" else Except.ok ("f" ++ toString k))
        (Except.ok ()) []).1.length = 4
    ∧ Event.logE "✓ Migrated 5 roles" "INFO" ∈ (migrateRolesCore
        [⟨"r1", "Role1", 1, 0, 0, false, false⟩, ⟨"r2", "Role2", 2, 0, 0, false, false⟩,
         ⟨"r3", "Role3", 3, 0, 0, false, false⟩, ⟨"r4", "Role4", 4, 0, 0, false, false⟩,
         ⟨"r5", "Role5", 5, 0, 0, false, false⟩] []
        (fun k => if k == 1 then Except.error "boom" else Except.ok ("f" ++ toString k))
        (Except.ok ()) []).2
    ∧ Event.logE "✓ Migrated 4 roles" "INFO" ∉ (migrateRolesCore
        [⟨"r1", "Role1", 1, 0, 0, false, false⟩, ⟨"r2", "Role2", 2, 0, 0, false, false⟩,
         ⟨"r3", "Role3", 3, 0, 0, false, false⟩, ⟨"r4", "Role4", 4, 0, 0, false, false⟩,
         ⟨"r5", "Role5", 5, 0, 0, false, false⟩] []
        (fun k => if k == 1 then Except.error "boom" else Except.ok ("f" ++ toString k))
        (Except.ok ()) []).2 := by
  refine ⟨by decide, by decide, by decide, by decide⟩

/-- The role table of a non-raising _migrate_roles result. -/
def rolesOkMap (x : Except (List Event × String) (Dict × List Event)) : Dict :=
  match x with
  | Except.ok (m, _) => m
  | Except.error _ => []

/-- The trace of a _migrate_roles result, raised or not. -/
def rolesEvents (x : Except (List Event × String) (Dict × List Event)) : List Event :=
  match x with
  | Except.ok (_, ev) => ev
  | Except.error (ev, _) => ev

/-- A key already bound stays bound under dict assignment. -/
theorem dget_dinsert_isSome (d : Dict) (k v k2 : String)
    (h : (dget d k2).isSome = true) :
    (dget (dinsert d k v) k2).isSome = true := by
  rw [dget_dinsert]
  split <;> simp [h]

/-- A key already bound stays bound through the role loop. -/
theorem migrateRolesLoop_isSome_mono (exB : String → Option NamedItem)
    (cr : Nat → Except String String) (k : Nat) (m : Dict)
    (pos : List (String × Int)) (L : List Role) (k2 : String)
    (h : (dget m k2).isSome = true) :
    (dget (migrateRolesLoop exB cr k m pos L).1 k2).isSome = true := by
  induction L generalizing k m pos with
  | nil => simpa [migrateRolesLoop]
  | cons r rs ih =>
    simp only [migrateRolesLoop]
    apply ih
    unfold migrateRoleStep
    rcases hx : exB r.name with _ | ex
    · rcases hc : cr k with e | fid
      · simpa [hx, hc]
      · simp only [hx, hc]
        exact dget_dinsert_isSome _ _ _ _ h
    · simp only [hx]
      exact dget_dinsert_isSome _ _ _ _ h

/-- Every name-matched role of the processed list ends up bound in the role
table after the loop. -/
theorem migrateRolesLoop_matched_bound (exB : String → Option NamedItem)
    (cr : Nat → Except String String) (r : Role) (ex : NamedItem)
    (hx : exB r.name = some ex) :
    ∀ (L : List Role) (k : Nat) (m : Dict) (pos : List (String × Int)),
      r ∈ L → (dget (migrateRolesLoop exB cr k m pos L).1 r.id).isSome = true := by
  intro L
  induction L with
  | nil => intro k m pos hr; simp at hr
  | cons r2 rs ih =>
    intro k m pos hr
    simp only [migrateRolesLoop]
    rcases List.mem_cons.mp hr with rfl | hr2
    · apply migrateRolesLoop_isSome_mono
      unfold migrateRoleStep
      simp only [hx]
      rw [dget_dinsert]
      simp
    · exact ih _ _ _ hr2

/-- Every role-creation call issued by the role loop carries a name that the
existing-roles lookup does not know. -/
theorem migrateRolesLoop_create_unmatched (exB : String → Option NamedItem)
    (cr : Nat → Except String String) (k : Nat) (m : Dict)
    (pos : List (String × Int)) (L : List Role) :
    ∀ n pm c ho mb,
      Event.createRoleCall n pm c ho mb ∈ (migrateRolesLoop exB cr k m pos L).2.2 →
      exB n = none := by
  induction L generalizing k m pos with
  | nil => intro n pm c ho mb hmem; simp [migrateRolesLoop] at hmem
  | cons r rs ih =>
    intro n pm c ho mb hmem
    simp only [migrateRolesLoop, List.mem_append] at hmem
    rcases hmem with hmem | hmem
    · unfold migrateRoleStep at hmem
      rcases hx : exB r.name with _ | ex
      · rcases hc : cr k with e | fid
        all_goals
          simp [hx, hc] at hmem
          exact hmem.1 ▸ hx
      · simp [hx] at hmem
    · exact ih (k + 1) _ _ n pm c ho mb hmem

/-- C4, counterexample to the claim as stated: invoked with no pre-fetched
destination role list, _migrate_roles issues a destination-role fetch, and the
source role named A is then skipped by name-matching against the fetched
destination roles (mapped directly, no creation call) even though this is
full-copy mode. -/
theorem fullcopy_no_fetch_refuted :
    Event.fetchFluxerRolesCall ∈ rolesEvents (migrateRoles
        [⟨"ra", "A", 1, 0, 0, false, false⟩] none
        (Except.ok [⟨"fe", "@everyone"⟩, ⟨"fa", "A"⟩])
        (fun _ => Except.ok "zz") (Except.ok ()) [])
    ∧ roleCreateCalls (rolesEvents (migrateRoles
        [⟨"ra", "A", 1, 0, 0, false, false⟩] none
        (Except.ok [⟨"fe", "@everyone"⟩, ⟨"fa", "A"⟩])
        (fun _ => Except.ok "zz") (Except.ok ()) [])) = []
    ∧ dget (rolesOkMap (migrateRoles
        [⟨"ra", "A", 1, 0, 0, false, false⟩] none
        (Except.ok [⟨"fe", "@everyone"⟩, ⟨"fa", "A"⟩])
        (fun _ => Except.ok "zz") (Except.ok ()) [])) "ra" = some "fa" := by
  refine ⟨by decide, by decide, by decide⟩

/-- A non-default source role whose name matches one of the given existing
destination roles is mapped by _migrate_roles and never passed to a creation
call. -/
theorem migrateRolesCore_matched (roles : List Role) (L : List NamedItem)
    (cr : Nat → Except String String) (rr : Except String Unit) (m : Dict)
    (r : Role) (hr : r ∈ roles) (hev : ¬ r.name = "@everyone")
    (ex : NamedItem) (hx : byName L r.name = some ex) :
    (dget (migrateRolesCore roles L cr rr m).1 r.id).isSome = true
    ∧ ∀ pm c ho mb,
        Event.createRoleCall r.name pm c ho mb ∉ (migrateRolesCore roles L cr rr m).2 := by
  have hmemL : r ∈ sortByKey (fun r2 => r2.position)
      (roles.filter (fun r2 => !(r2.name == "@everyone"))) := by
    rw [mem_sortByKey, List.mem_filter]
    exact ⟨hr, by simp [hev]⟩
  constructor
  · simp only [migrateRolesCore]
    rcases hfind : roles.find? (fun r2 => r2.name == "@everyone") with _ | er
    · exact migrateRolesLoop_matched_bound _ _ r ex hx _ _ _ _ hmemL
    · rcases hexf : byName L "@everyone" with _ | fe
      all_goals
        simp only [hexf]
        exact migrateRolesLoop_matched_bound _ _ r ex hx _ _ _ _ hmemL
  · intro pm c ho mb hmem
    simp only [migrateRolesCore, List.mem_append] at hmem
    rcases hmem with ((hmem | hmem) | hmem) | hmem
    · rcases hfind : roles.find? (fun r2 => r2.name == "@everyone") with _ | er <;>
        rw [hfind] at hmem
      · simp at hmem
      · rcases hexf : byName L "@everyone" with _ | fe <;> rw [hexf] at hmem <;>
          simp at hmem
    · have := migrateRolesLoop_create_unmatched _ _ _ _ _ _ _ _ _ _ _ hmem
      rw [hx] at this
      simp at this
    · simp at hmem
    · exact reorderRolesEv_no_create rr _ _ _ _ _ _ hmem

/-- C4 as amended: when _migrate_roles is invoked without a pre-fetched
destination role list, it performs exactly one destination-role fetch of its
own (its outcome deciding the run: a failed fetch escapes); name-matching
against the fetched list applies in this mode exactly as in partial sync, so
a non-default source role whose name matches a fetched destination role is
mapped and never passed to a creation call. -/
theorem fullcopy_refetch_spec (roles : List Role) (L : List NamedItem)
    (cr : Nat → Except String String) (rr : Except String Unit) (m : Dict) :
    migrateRoles roles none (Except.ok L) cr rr m =
      Except.ok ((migrateRolesCore roles L cr rr m).1,
        [Event.logE "\n--- Migrating Roles ---" "INFO", Event.fetchFluxerRolesCall] ++
        (migrateRolesCore roles L cr rr m).2)
    ∧ (∀ e, migrateRoles roles none (Except.error e) cr rr m =
        Except.error ([Event.logE "\n--- Migrating Roles ---" "INFO",
                       Event.fetchFluxerRolesCall], e))
    ∧ (∀ r ∈ roles, ¬ r.name = "@everyone" → ∀ ex, byName L r.name = some ex →
        (dget (migrateRolesCore roles L cr rr m).1 r.id).isSome = true
        ∧ ∀ pm c ho mb,
            Event.createRoleCall r.name pm c ho mb ∉ (migrateRolesCore roles L cr rr m).2) :=
  ⟨by simp [migrateRoles], fun e => by simp [migrateRoles],
   fun r hr hev ex hx => migrateRolesCore_matched roles L cr rr m r hr hev ex hx⟩

/-- Witness for fullcopy_refetch_spec: one source role name-matching the
fetched destination list ends up bound in the role table. -/
theorem fullcopy_refetch_witness :
    (dget (migrateRolesCore [⟨"ra", "A", 1, 0, 0, false, false⟩] [⟨"fa", "A"⟩]
        (fun _ => Except.ok "zz") (Except.ok ()) []).1 "ra").isSome = true :=
  ((fullcopy_refetch_spec [⟨"ra", "A", 1, 0, 0, false, false⟩] [⟨"fa", "A"⟩]
      (fun _ => Except.ok "zz") (Except.ok ()) []).2.2
    ⟨"ra", "A", 1, 0, 0, false, false⟩ (by decide) (by decide)
    ⟨"fa", "A"⟩ (by decide)).1

/-- Any event of an _apply_channel_permissions block is an edit call or a log
line, never a creation, role-creation or emoji-creation call. -/
theorem mem_applyChPerms_not_create (roleMap : Dict) (chId : String)
    (er : Nat → Except String Unit) (ows : List Overwrite) :
    ∀ ev ∈ applyChannelPermissions roleMap chId er ows, isCreateCall ev = false := by
  intro ev hev
  have h := applyChPerms_no_create roleMap chId er ows
  simp only [createCalls] at h
  have := List.filter_eq_nil_iff.mp h ev hev
  simpa using this

theorem create_mem_applyChPerms_iff (n : String) (ct : Nat) (tp : Option String)
    (nf : Option Bool) (ps : Int) (br ul : Option Nat) (pr : Option (Option String))
    (rm : Dict) (cid : String) (er : Nat → Except String Unit) (ows : List Overwrite) :
    (Event.createChannelCall n ct tp nf ps br ul pr ∈ applyChannelPermissions rm cid er ows)
      ↔ False := by
  simp only [iff_false]
  intro hc
  have := mem_applyChPerms_not_create rm cid er ows _ hc
  simp [isCreateCall] at this

/-- Any channel-creation call of the leaf step carries the processed
channel's name, and is only issued when that name has no match among the
existing destination channels. -/
theorem migrateLeafChannel_create_name (exB : String → Option NamedItem)
    (catMap roleMap chanMap : Dict) (mp : Bool) (cres : Except String String)
    (er : Nat → Except String Unit) (ch : Channel) :
    ∀ n ct tp nf ps br ul pr,
      Event.createChannelCall n ct tp nf ps br ul pr
        ∈ (migrateLeafChannel exB catMap roleMap mp cres er chanMap ch).2.2 →
      n = ch.name ∧ exB ch.name = none := by
  intro n ct tp nf ps br ul pr hmem
  by_cases h4 : ch.ctype = 4
  · simp [migrateLeafChannel, h4] at hmem
  · by_cases h0 : ch.ctype = 0
    · rcases hx : exB ch.name with _ | ex <;> cases cres <;> cases mp <;>
        simp_all [migrateLeafChannel, h0, hx, create_mem_applyChPerms_iff]
    · by_cases h5 : ch.ctype = 5
      · rcases hx : exB ch.name with _ | ex <;> cases cres <;> cases mp <;>
          simp_all [migrateLeafChannel, h5, hx, create_mem_applyChPerms_iff]
      · by_cases h2 : ch.ctype = 2
        · rcases hx : exB ch.name with _ | ex <;> cases cres <;> cases mp <;>
            simp_all [migrateLeafChannel, h2, hx, create_mem_applyChPerms_iff]
        · by_cases h15 : ch.ctype = 15
          · rcases hx : exB ch.name with _ | ex <;> cases cres <;> cases mp <;>
              simp_all [migrateLeafChannel, h15, hx, create_mem_applyChPerms_iff]
          · by_cases h13 : ch.ctype = 13
            · simp [migrateLeafChannel, h13] at hmem
            · by_cases h10 : ch.ctype = 10
              · simp [migrateLeafChannel, h10] at hmem
              · by_cases h11 : ch.ctype = 11
                · simp [migrateLeafChannel, h11] at hmem
                · by_cases h12 : ch.ctype = 12
                  · simp [migrateLeafChannel, h12] at hmem
                  · simp [migrateLeafChannel, h0, h2, h4, h5, h10, h11, h12, h13, h15] at hmem

/-- The leaf step leaves the channel table unchanged or binds exactly the
processed channel's source id. -/
theorem migrateLeafChannel_map_shape (exB : String → Option NamedItem)
    (catMap roleMap chanMap : Dict) (mp : Bool) (cres : Except String String)
    (er : Nat → Except String Unit) (ch : Channel) :
    (migrateLeafChannel exB catMap roleMap mp cres er chanMap ch).1 = chanMap
    ∨ ∃ v, (migrateLeafChannel exB catMap roleMap mp cres er chanMap ch).1 =
        dinsert chanMap ch.id v := by
  by_cases h4 : ch.ctype = 4
  · left; simp [migrateLeafChannel, h4]
  · by_cases h0 : ch.ctype = 0
    · rcases hx : exB ch.name with _ | ex <;> cases cres <;>
        simp [migrateLeafChannel, h0, hx]
    · by_cases h5 : ch.ctype = 5
      · rcases hx : exB ch.name with _ | ex <;> cases cres <;>
          simp [migrateLeafChannel, h5, hx]
      · by_cases h2 : ch.ctype = 2
        · rcases hx : exB ch.name with _ | ex <;> cases cres <;>
            simp [migrateLeafChannel, h2, hx]
        · by_cases h15 : ch.ctype = 15
          · rcases hx : exB ch.name with _ | ex <;> cases cres <;>
              simp [migrateLeafChannel, h15, hx]
          · by_cases h13 : ch.ctype = 13
            · left; simp [migrateLeafChannel, h13]
            · by_cases h10 : ch.ctype = 10
              · left; simp [migrateLeafChannel, h10]
              · by_cases h11 : ch.ctype = 11
                · left; simp [migrateLeafChannel, h11]
                · by_cases h12 : ch.ctype = 12
                  · left; simp [migrateLeafChannel, h12]
                  · left
                    simp [migrateLeafChannel, h0, h2, h4, h5, h10, h11, h12, h13, h15]

/-- A name-matched channel of a created-or-converted type is mapped directly
to the existing destination channel by the leaf step, and counted. -/
theorem migrateLeafChannel_matched (exB : String → Option NamedItem)
    (catMap roleMap chanMap : Dict) (mp : Bool) (cres : Except String String)
    (er : Nat → Except String Unit) (ch : Channel) (ex : NamedItem)
    (hx : exB ch.name = some ex)
    (htype : ch.ctype = 0 ∨ ch.ctype = 2 ∨ ch.ctype = 5 ∨ ch.ctype = 15) :
    (migrateLeafChannel exB catMap roleMap mp cres er chanMap ch).1 =
      dinsert chanMap ch.id ex.id
    ∧ (migrateLeafChannel exB catMap roleMap mp cres er chanMap ch).2.1 = 1 := by
  rcases htype with h | h | h | h <;> simp [migrateLeafChannel, h, hx]

/-- A name-matched leaf channel never triggers a creation call. -/
theorem migrateLeafChannel_matched_no_create (exB : String → Option NamedItem)
    (catMap roleMap chanMap : Dict) (mp : Bool) (cres : Except String String)
    (er : Nat → Except String Unit) (ch : Channel) (ex : NamedItem)
    (hx : exB ch.name = some ex) :
    createCalls (migrateLeafChannel exB catMap roleMap mp cres er chanMap ch).2.2 = [] := by
  simp only [createCalls, List.filter_eq_nil_iff]
  intro ev hev hc
  cases ev <;> simp only [isCreateCall] at hc
  all_goals try exact absurd hc (by decide)
  case createChannelCall n ct tp nf ps br ul pr =>
    have := migrateLeafChannel_create_name exB catMap roleMap chanMap mp cres er ch
      n ct tp nf ps br ul pr hev
    rw [hx] at this
    simp at this

/-- An unmatched leaf channel of a created-or-converted type always triggers
a creation call carrying its name (whether or not the call then succeeds). -/
theorem migrateLeafChannel_unmatched_creates (exB : String → Option NamedItem)
    (catMap roleMap chanMap : Dict) (mp : Bool) (cres : Except String String)
    (er : Nat → Except String Unit) (ch : Channel)
    (hx : exB ch.name = none)
    (htype : ch.ctype = 0 ∨ ch.ctype = 2 ∨ ch.ctype = 5 ∨ ch.ctype = 15) :
    ∃ ct tp nf ps br ul pr,
      Event.createChannelCall ch.name ct tp nf ps br ul pr
        ∈ (migrateLeafChannel exB catMap roleMap mp cres er chanMap ch).2.2 := by
  rcases htype with h | h | h | h
  · exact ⟨0, ch.topic, some ch.nsfw, ch.position, none, none,
      some (ch.parent_id.bind (fun pid => dget catMap pid)),
      by cases cres <;> simp [migrateLeafChannel, h, hx]⟩
  · exact ⟨2, none, none, ch.position, some ch.bitrate, some ch.user_limit,
      some (ch.parent_id.bind (fun pid => dget catMap pid)),
      by cases cres <;> simp [migrateLeafChannel, h, hx]⟩
  · exact ⟨0, ch.topic, some ch.nsfw, ch.position, none, none,
      some (ch.parent_id.bind (fun pid => dget catMap pid)),
      by cases cres <;> simp [migrateLeafChannel, h, hx]⟩
  · exact ⟨0, some (forumTopic ch.topic), some ch.nsfw, ch.position, none, none,
      some (ch.parent_id.bind (fun pid => dget catMap pid)),
      by cases cres <;> simp [migrateLeafChannel, h, hx]⟩

/-- Any channel-creation call of the category step carries the processed
category's name, and only happens when that name is unmatched. -/
theorem migrateCategory_create_name (exB : String → Option NamedItem) (mp : Bool)
    (cres : Except String String) (er : Nat → Except String Unit)
    (roleMap catMap : Dict) (cat : Channel) :
    ∀ n ct tp nf ps br ul pr,
      Event.createChannelCall n ct tp nf ps br ul pr
        ∈ (migrateCategory exB mp cres er roleMap catMap cat).2 →
      n = cat.name ∧ exB cat.name = none := by
  intro n ct tp nf ps br ul pr hmem
  rcases hx : exB cat.name with _ | ex <;> cases cres <;> cases mp <;>
    simp_all [migrateCategory, hx, create_mem_applyChPerms_iff]

/-- The category step leaves the category table unchanged or binds the
processed category's source id. -/
theorem migrateCategory_map_shape (exB : String → Option NamedItem) (mp : Bool)
    (cres : Except String String) (er : Nat → Except String Unit)
    (roleMap catMap : Dict) (cat : Channel) :
    (migrateCategory exB mp cres er roleMap catMap cat).1 = catMap
    ∨ ∃ v, (migrateCategory exB mp cres er roleMap catMap cat).1 =
        dinsert catMap cat.id v := by
  rcases hx : exB cat.name with _ | ex <;> cases cres <;>
    simp [migrateCategory, hx]

/-- A name-matched category is mapped directly to the existing destination
channel with no creation call. -/
theorem migrateCategory_matched (exB : String → Option NamedItem) (mp : Bool)
    (cres : Except String String) (er : Nat → Except String Unit)
    (roleMap catMap : Dict) (cat : Channel) (ex : NamedItem)
    (hx : exB cat.name = some ex) :
    (migrateCategory exB mp cres er roleMap catMap cat).1 =
      dinsert catMap cat.id ex.id := by
  simp [migrateCategory, hx]

/-- An unmatched category always triggers a creation call carrying its name. -/
theorem migrateCategory_unmatched_creates (exB : String → Option NamedItem) (mp : Bool)
    (cres : Except String String) (er : Nat → Except String Unit)
    (roleMap catMap : Dict) (cat : Channel) (hx : exB cat.name = none) :
    Event.createChannelCall cat.name 4 none none cat.position none none none
      ∈ (migrateCategory exB mp cres er roleMap catMap cat).2 := by
  cases cres <;> simp [migrateCategory, hx]

/-- A key already bound stays bound through the category loop. -/
theorem migrateCatsLoop_isSome_mono (exB : String → Option NamedItem)
    (mp : Bool) (ccr : Nat → Except String String)
    (ecr : Nat → Nat → Except String Unit) (roleMap : Dict) (k2 : String) :
    ∀ (L : List Channel) (k : Nat) (catMap : Dict),
      (dget catMap k2).isSome = true →
      (dget (migrateCatsLoop exB mp ccr ecr roleMap k catMap L).1 k2).isSome = true := by
  intro L
  induction L with
  | nil => intro k catMap h; simpa [migrateCatsLoop]
  | cons c cs ih =>
    intro k catMap h
    simp only [migrateCatsLoop]
    apply ih
    rcases migrateCategory_map_shape exB mp (ccr k) (ecr k) roleMap catMap c with
      hs | ⟨v, hs⟩ <;> rw [hs]
    · exact h
    · exact dget_dinsert_isSome _ _ _ _ h

/-- Every name-matched category of the processed list ends up bound in the
category table after the category loop. -/
theorem migrateCatsLoop_matched_bound (exB : String → Option NamedItem)
    (mp : Bool) (ccr : Nat → Except String String)
    (ecr : Nat → Nat → Except String Unit) (roleMap : Dict)
    (cat : Channel) (ex : NamedItem) (hx : exB cat.name = some ex) :
    ∀ (L : List Channel) (k : Nat) (catMap : Dict),
      cat ∈ L →
      (dget (migrateCatsLoop exB mp ccr ecr roleMap k catMap L).1 cat.id).isSome = true := by
  intro L
  induction L with
  | nil => intro k catMap hr; simp at hr
  | cons c cs ih =>
    intro k catMap hr
    simp only [migrateCatsLoop]
    rcases List.mem_cons.mp hr with rfl | hr2
    · apply migrateCatsLoop_isSome_mono
      rw [migrateCategory_matched exB mp (ccr k) (ecr k) roleMap catMap cat ex hx]
      rw [dget_dinsert]
      simp
    · exact ih _ _ hr2

/-- Any channel-creation call of the category loop has an unmatched name. -/
theorem migrateCatsLoop_create_unmatched (exB : String → Option NamedItem)
    (mp : Bool) (ccr : Nat → Except String String)
    (ecr : Nat → Nat → Except String Unit) (roleMap : Dict) :
    ∀ (L : List Channel) (k : Nat) (catMap : Dict) (n : String) ct tp nf ps br ul pr,
      Event.createChannelCall n ct tp nf ps br ul pr
        ∈ (migrateCatsLoop exB mp ccr ecr roleMap k catMap L).2 →
      exB n = none := by
  intro L
  induction L with
  | nil => intro k catMap n ct tp nf ps br ul pr hmem; simp [migrateCatsLoop] at hmem
  | cons c cs ih =>
    intro k catMap n ct tp nf ps br ul pr hmem
    simp only [migrateCatsLoop, List.mem_append] at hmem
    rcases hmem with hmem | hmem
    · have := migrateCategory_create_name exB mp (ccr k) (ecr k) roleMap catMap c
        n ct tp nf ps br ul pr hmem
      exact this.1 ▸ this.2
    · exact ih _ _ n ct tp nf ps br ul pr hmem

/-- Every unmatched category of the processed list triggers a creation call
carrying its name somewhere in the category loop. -/
theorem migrateCatsLoop_unmatched_creates (exB : String → Option NamedItem)
    (mp : Bool) (ccr : Nat → Except String String)
    (ecr : Nat → Nat → Except String Unit) (roleMap : Dict)
    (cat : Channel) (hx : exB cat.name = none) :
    ∀ (L : List Channel) (k : Nat) (catMap : Dict),
      cat ∈ L →
      Event.createChannelCall cat.name 4 none none cat.position none none none
        ∈ (migrateCatsLoop exB mp ccr ecr roleMap k catMap L).2 := by
  intro L
  induction L with
  | nil => intro k catMap hr; simp at hr
  | cons c cs ih =>
    intro k catMap hr
    simp only [migrateCatsLoop, List.mem_append]
    rcases List.mem_cons.mp hr with rfl | hr2
    · exact Or.inl (migrateCategory_unmatched_creates exB mp (ccr k) (ecr k) roleMap catMap cat hx)
    · exact Or.inr (ih _ _ hr2)

/-- A key already bound stays bound through the leaf-channel loop. -/
theorem migrateLeafLoop_isSome_mono (exB : String → Option NamedItem)
    (catMap roleMap : Dict) (mp : Bool) (ccr : Nat → Except String String)
    (ecr : Nat → Nat → Except String Unit) (k2 : String) :
    ∀ (L : List Channel) (k : Nat) (chanMap : Dict) (count : Nat),
      (dget chanMap k2).isSome = true →
      (dget (migrateLeafLoop exB catMap roleMap mp ccr ecr k chanMap count L).1 k2).isSome = true := by
  intro L
  induction L with
  | nil => intro k chanMap count h; simpa [migrateLeafLoop]
  | cons c cs ih =>
    intro k chanMap count h
    simp only [migrateLeafLoop]
    apply ih
    rcases migrateLeafChannel_map_shape exB catMap roleMap chanMap mp (ccr k) (ecr k) c with
      hs | ⟨v, hs⟩ <;> rw [hs]
    · exact h
    · exact dget_dinsert_isSome _ _ _ _ h

/-- Every name-matched leaf channel of a created-or-converted type ends up
bound in the channel table after the leaf loop. -/
theorem migrateLeafLoop_matched_bound (exB : String → Option NamedItem)
    (catMap roleMap : Dict) (mp : Bool) (ccr : Nat → Except String String)
    (ecr : Nat → Nat → Except String Unit)
    (ch : Channel) (ex : NamedItem) (hx : exB ch.name = some ex)
    (htype : ch.ctype = 0 ∨ ch.ctype = 2 ∨ ch.ctype = 5 ∨ ch.ctype = 15) :
    ∀ (L : List Channel) (k : Nat) (chanMap : Dict) (count : Nat),
      ch ∈ L →
      (dget (migrateLeafLoop exB catMap roleMap mp ccr ecr k chanMap count L).1 ch.id).isSome = true := by
  intro L
  induction L with
  | nil => intro k chanMap count hr; simp at hr
  | cons c cs ih =>
    intro k chanMap count hr
    simp only [migrateLeafLoop]
    rcases List.mem_cons.mp hr with rfl | hr2
    · apply migrateLeafLoop_isSome_mono
      rw [(migrateLeafChannel_matched exB catMap roleMap chanMap mp (ccr k) (ecr k) ch ex hx htype).1]
      rw [dget_dinsert]
      simp
    · exact ih _ _ _ hr2

/-- Any channel-creation call of the leaf loop has an unmatched name. -/
theorem migrateLeafLoop_create_unmatched (exB : String → Option NamedItem)
    (catMap roleMap : Dict) (mp : Bool) (ccr : Nat → Except String String)
    (ecr : Nat → Nat → Except String Unit) :
    ∀ (L : List Channel) (k : Nat) (chanMap : Dict) (count : Nat)
      (n : String) ct tp nf ps br ul pr,
      Event.createChannelCall n ct tp nf ps br ul pr
        ∈ (migrateLeafLoop exB catMap roleMap mp ccr ecr k chanMap count L).2.2 →
      exB n = none := by
  intro L
  induction L with
  | nil => intro k chanMap count n ct tp nf ps br ul pr hmem; simp [migrateLeafLoop] at hmem
  | cons c cs ih =>
    intro k chanMap count n ct tp nf ps br ul pr hmem
    simp only [migrateLeafLoop, List.mem_append] at hmem
    rcases hmem with hmem | hmem
    · have := migrateLeafChannel_create_name exB catMap roleMap chanMap mp (ccr k) (ecr k) c
        n ct tp nf ps br ul pr hmem
      exact this.1 ▸ this.2
    · exact ih _ _ _ n ct tp nf ps br ul pr hmem

/-- Every unmatched leaf channel of a created-or-converted type triggers a
creation call carrying its name somewhere in the leaf loop. -/
theorem migrateLeafLoop_unmatched_creates (exB : String → Option NamedItem)
    (catMap roleMap : Dict) (mp : Bool) (ccr : Nat → Except String String)
    (ecr : Nat → Nat → Except String Unit)
    (ch : Channel) (hx : exB ch.name = none)
    (htype : ch.ctype = 0 ∨ ch.ctype = 2 ∨ ch.ctype = 5 ∨ ch.ctype = 15) :
    ∀ (L : List Channel) (k : Nat) (chanMap : Dict) (count : Nat),
      ch ∈ L →
      ∃ ct tp nf ps br ul pr,
        Event.createChannelCall ch.name ct tp nf ps br ul pr
          ∈ (migrateLeafLoop exB catMap roleMap mp ccr ecr k chanMap count L).2.2 := by
  intro L
  induction L with
  | nil => intro k chanMap count hr; simp at hr
  | cons c cs ih =>
    intro k chanMap count hr
    simp only [migrateLeafLoop]
    rcases List.mem_cons.mp hr with rfl | hr2
    · obtain ⟨ct, tp, nf, ps, br, ul, pr, hm⟩ :=
        migrateLeafChannel_unmatched_creates exB catMap roleMap chanMap mp (ccr k) (ecr k) ch hx htype
      exact ⟨ct, tp, nf, ps, br, ul, pr, by simp [List.mem_append]; exact Or.inl hm⟩
    · obtain ⟨ct, tp, nf, ps, br, ul, pr, hm⟩ := ih _ _ _ hr2
      exact ⟨ct, tp, nf, ps, br, ul, pr, by simp [List.mem_append]; exact Or.inr hm⟩

/-- A name-matched emoji is counted as already present and skipped: no
download, no upload, just the skip log line. -/
theorem migrateEmojiStep_matched (exB : String → Option NamedItem)
    (dl : Option Unit) (cres : Except String Unit) (e : Emoji) (ex : NamedItem)
    (hx : exB e.name = some ex) :
    migrateEmojiStep exB dl cres e =
      (1, [Event.logE ("Skipping emoji (already exists): :" ++ e.name ++ ":") "INFO"]) := by
  simp [migrateEmojiStep, hx]

/-- Any emoji-creation call of the emoji step carries the processed emoji's
name and only happens when that name is unmatched. -/
theorem migrateEmojiStep_create_name (exB : String → Option NamedItem)
    (dl : Option Unit) (cres : Except String Unit) (e : Emoji) :
    ∀ n, Event.createEmojiCall n ∈ (migrateEmojiStep exB dl cres e).2 →
      n = e.name ∧ exB e.name = none := by
  intro n hmem
  rcases hx : exB e.name with _ | ex <;> cases dl <;> cases cres <;>
    simp_all [migrateEmojiStep, hx]

/-- An unmatched emoji with a successful download always triggers an upload
call carrying its name. -/
theorem migrateEmojiStep_unmatched_creates (exB : String → Option NamedItem)
    (cres : Except String Unit) (e : Emoji) (hx : exB e.name = none) :
    Event.createEmojiCall e.name ∈ (migrateEmojiStep exB (some ()) cres e).2 := by
  cases cres <;> simp [migrateEmojiStep, hx]

/-- Any emoji-creation call of the emoji loop has an unmatched name. -/
theorem migrateEmojisLoop_create_unmatched (exB : String → Option NamedItem)
    (dl : Nat → Option Unit) (cres : Nat → Except String Unit) :
    ∀ (L : List Emoji) (k : Nat) (count : Nat) (n : String),
      Event.createEmojiCall n ∈ (migrateEmojisLoop exB dl cres k count L).2 →
      exB n = none := by
  intro L
  induction L with
  | nil => intro k count n hmem; simp [migrateEmojisLoop] at hmem
  | cons e es ih =>
    intro k count n hmem
    simp only [migrateEmojisLoop, List.mem_append] at hmem
    rcases hmem with hmem | hmem
    · have := migrateEmojiStep_create_name exB (dl k) (cres k) e n hmem
      exact this.1 ▸ this.2
    · exact ih _ _ n hmem

/-- Every unmatched emoji of the processed list triggers an upload call
carrying its name when downloads succeed. -/
theorem migrateEmojisLoop_unmatched_creates (exB : String → Option NamedItem)
    (dl : Nat → Option Unit) (cres : Nat → Except String Unit)
    (hdl : ∀ k, dl k = some ()) (e : Emoji) (hx : exB e.name = none) :
    ∀ (L : List Emoji) (k : Nat) (count : Nat),
      e ∈ L →
      Event.createEmojiCall e.name ∈ (migrateEmojisLoop exB dl cres k count L).2 := by
  intro L
  induction L with
  | nil => intro k count hr; simp at hr
  | cons e2 es ih =>
    intro k count hr
    simp only [migrateEmojisLoop, List.mem_append]
    rcases List.mem_cons.mp hr with rfl | hr2
    · left
      rw [hdl k]
      exact migrateEmojiStep_unmatched_creates exB (cres k) e hx
    · exact Or.inr (ih _ _ hr2)

/-- Recognizer for emoji-upload calls in a trace. -/
def isEmojiCreateCall : Event → Bool
  | Event.createEmojiCall _ => true
  | _ => false

/-- Shape of the role table after one role step: unchanged, or a single
insert at the processed role's id. -/
theorem migrateRoleStep_map_shape (exB : String → Option NamedItem)
    (cres : Except String String) (roleMap : Dict) (pos : List (String × Int))
    (r : Role) :
    (migrateRoleStep exB cres roleMap pos r).1 = roleMap
    ∨ ∃ v, (migrateRoleStep exB cres roleMap pos r).1 = dinsert roleMap r.id v := by
  unfold migrateRoleStep
  rcases hx : exB r.name with _ | ex <;> cases cres <;> simp [hx]

/-- Through the role loop, a name-matched role whose id no other listed role
shares ends up bound to the matched destination role's id: either the role is
still to be processed, or the binding is already in place and is preserved. -/
theorem migrateRolesLoop_matched_value (exB : String → Option NamedItem)
    (cr : Nat → Except String String) (r : Role) (ex : NamedItem)
    (hx : exB r.name = some ex) :
    ∀ (L : List Role) (k : Nat) (m : Dict) (pos : List (String × Int)),
      (∀ r2 ∈ L, r2.id = r.id → r2 = r) →
      (r ∈ L ∨ dget m r.id = some ex.id) →
      dget (migrateRolesLoop exB cr k m pos L).1 r.id = some ex.id := by
  intro L
  induction L with
  | nil =>
    intro k m pos huniq hst
    rcases hst with hin | hm
    · simp at hin
    · simpa [migrateRolesLoop]
  | cons r2 rs ih =>
    intro k m pos huniq hst
    simp only [migrateRolesLoop]
    have hstep_r : ∀ (m0 : Dict) (pos0 : List (String × Int)),
        dget (migrateRoleStep exB (cr k) m0 pos0 r).1 r.id = some ex.id := by
      intro m0 pos0
      unfold migrateRoleStep
      simp only [hx]
      rw [dget_dinsert]
      simp
    apply ih
    · intro r3 h3
      exact huniq r3 (by simp [h3])
    · rcases hst with hin | hm
      · rcases List.mem_cons.mp hin with rfl | hin2
        · exact Or.inr (hstep_r m pos)
        · exact Or.inl hin2
      · by_cases hid : r2.id = r.id
        · have heq : r2 = r := huniq r2 (by simp) hid
          subst heq
          exact Or.inr (hstep_r m pos)
        · rcases migrateRoleStep_map_shape exB (cr k) m pos r2 with hs | ⟨v, hs⟩ <;> rw [hs]
          · exact Or.inr hm
          · right
            rw [dget_dinsert]
            have hne : ¬ r.id = r2.id := fun hh => hid hh.symm
            simp [hne, hm]

/-- Through the category pass, a name-matched category whose id no other
listed category shares ends up bound to the matched destination channel's
id. -/
theorem migrateCatsLoop_matched_value (exB : String → Option NamedItem)
    (mp : Bool) (ccr : Nat → Except String String)
    (ecr : Nat → Nat → Except String Unit) (roleMap : Dict)
    (cat : Channel) (ex : NamedItem) (hx : exB cat.name = some ex) :
    ∀ (L : List Channel) (k : Nat) (catMap : Dict),
      (∀ c2 ∈ L, c2.id = cat.id → c2 = cat) →
      (cat ∈ L ∨ dget catMap cat.id = some ex.id) →
      dget (migrateCatsLoop exB mp ccr ecr roleMap k catMap L).1 cat.id = some ex.id := by
  intro L
  induction L with
  | nil =>
    intro k catMap huniq hst
    rcases hst with hin | hm
    · simp at hin
    · simpa [migrateCatsLoop]
  | cons c cs ih =>
    intro k catMap huniq hst
    simp only [migrateCatsLoop]
    have hstep : ∀ (m0 : Dict),
        dget (migrateCategory exB mp (ccr k) (ecr k) roleMap m0 cat).1 cat.id = some ex.id := by
      intro m0
      rw [migrateCategory_matched exB mp (ccr k) (ecr k) roleMap m0 cat ex hx]
      rw [dget_dinsert]
      simp
    apply ih
    · intro c3 h3
      exact huniq c3 (by simp [h3])
    · rcases hst with hin | hm
      · rcases List.mem_cons.mp hin with rfl | hin2
        · exact Or.inr (hstep catMap)
        · exact Or.inl hin2
      · by_cases hid : c.id = cat.id
        · have heq : c = cat := huniq c (by simp) hid
          subst heq
          exact Or.inr (hstep catMap)
        · rcases migrateCategory_map_shape exB mp (ccr k) (ecr k) roleMap catMap c with hs | ⟨v, hs⟩ <;> rw [hs]
          · exact Or.inr hm
          · right
            rw [dget_dinsert]
            have hne : ¬ cat.id = c.id := fun hh => hid hh.symm
            simp [hne, hm]

/-- Through the leaf-channel pass, a name-matched channel of a
created-or-converted type whose id no other listed channel shares ends up
bound to the matched destination channel's id. -/
theorem migrateLeafLoop_matched_value (exB : String → Option NamedItem)
    (catMap roleMap : Dict) (mp : Bool) (ccr : Nat → Except String String)
    (ecr : Nat → Nat → Except String Unit)
    (ch : Channel) (ex : NamedItem) (hx : exB ch.name = some ex)
    (htype : ch.ctype = 0 ∨ ch.ctype = 2 ∨ ch.ctype = 5 ∨ ch.ctype = 15) :
    ∀ (L : List Channel) (k : Nat) (chanMap : Dict) (count : Nat),
      (∀ c2 ∈ L, c2.id = ch.id → c2 = ch) →
      (ch ∈ L ∨ dget chanMap ch.id = some ex.id) →
      dget (migrateLeafLoop exB catMap roleMap mp ccr ecr k chanMap count L).1 ch.id = some ex.id := by
  intro L
  induction L with
  | nil =>
    intro k chanMap count huniq hst
    rcases hst with hin | hm
    · simp at hin
    · simpa [migrateLeafLoop]
  | cons c cs ih =>
    intro k chanMap count huniq hst
    simp only [migrateLeafLoop]
    have hstep : ∀ (m0 : Dict),
        dget (migrateLeafChannel exB catMap roleMap mp (ccr k) (ecr k) m0 ch).1 ch.id = some ex.id := by
      intro m0
      rw [(migrateLeafChannel_matched exB catMap roleMap m0 mp (ccr k) (ecr k) ch ex hx htype).1]
      rw [dget_dinsert]
      simp
    apply ih
    · intro c3 h3
      exact huniq c3 (by simp [h3])
    · rcases hst with hin | hm
      · rcases List.mem_cons.mp hin with rfl | hin2
        · exact Or.inr (hstep chanMap)
        · exact Or.inl hin2
      · by_cases hid : c.id = ch.id
        · have heq : c = ch := huniq c (by simp) hid
          subst heq
          exact Or.inr (hstep chanMap)
        · rcases migrateLeafChannel_map_shape exB catMap roleMap chanMap mp (ccr k) (ecr k) c with hs | ⟨v, hs⟩ <;> rw [hs]
          · exact Or.inr hm
          · right
            rw [dget_dinsert]
            have hne : ¬ ch.id = c.id := fun hh => hid hh.symm
            simp [hne, hm]

/-- C6, counterexample to the claim as stated, on two legs.  Emoji leg: a
partial-sync run whose source emoji X matches an existing destination emoji X
issues zero emoji-upload calls and counts the emoji as present, but records
no identity-mapping entry for the emoji's source id in any of the four
mapping tables — the engine has no emoji mapping table at all, so the claimed
direct mapping for a matched emoji is never recorded.  Skipped-type leg: a
partial-sync run whose source channels S, T and U (a stage channel, a thread
and an unknown type code) each name-match an existing destination channel
issues zero channel-creation calls yet handles zero channels and ends with
empty category and channel tables: skipped channel types are dropped before
the name lookup, so no direct mapping is recorded for them either. -/
theorem partial_sync_emoji_mapping_refuted :
    ((migrateServer emptyMaps ⟨"g1", "G", none⟩ (some "FX") none true
        { okOracle with
            prefetchEmojis := Except.ok [⟨"xe", "X"⟩],
            discordEmojis := Except.ok [⟨"e1", "X", false⟩] }).2.2.filter
      isEmojiCreateCall) = []
    ∧ Event.logE "✓ Migrated 1 emojis" "INFO"
        ∈ (migrateServer emptyMaps ⟨"g1", "G", none⟩ (some "FX") none true
            { okOracle with
                prefetchEmojis := Except.ok [⟨"xe", "X"⟩],
                discordEmojis := Except.ok [⟨"e1", "X", false⟩] }).2.2
    ∧ dget (migrateServer emptyMaps ⟨"g1", "G", none⟩ (some "FX") none true
          { okOracle with
              prefetchEmojis := Except.ok [⟨"xe", "X"⟩],
              discordEmojis := Except.ok [⟨"e1", "X", false⟩] }).2.1.guild_id_map "e1" = none
    ∧ dget (migrateServer emptyMaps ⟨"g1", "G", none⟩ (some "FX") none true
          { okOracle with
              prefetchEmojis := Except.ok [⟨"xe", "X"⟩],
              discordEmojis := Except.ok [⟨"e1", "X", false⟩] }).2.1.role_id_map "e1" = none
    ∧ dget (migrateServer emptyMaps ⟨"g1", "G", none⟩ (some "FX") none true
          { okOracle with
              prefetchEmojis := Except.ok [⟨"xe", "X"⟩],
              discordEmojis := Except.ok [⟨"e1", "X", false⟩] }).2.1.category_id_map "e1" = none
    ∧ dget (migrateServer emptyMaps ⟨"g1", "G", none⟩ (some "FX") none true
          { okOracle with
              prefetchEmojis := Except.ok [⟨"xe", "X"⟩],
              discordEmojis := Except.ok [⟨"e1", "X", false⟩] }).2.1.channel_id_map "e1" = none
    ∧ createCalls (migrateServer emptyMaps ⟨"g1", "G", none⟩ (some "FX") none true
        { okOracle with
            prefetchChannels := Except.ok [⟨"f1", "S"⟩, ⟨"f2", "T"⟩, ⟨"f3", "U"⟩],
            discordChannels := Except.ok
              [⟨"s1", "S", 13, 0, none, none, false, 0, 0, []⟩,
               ⟨"s2", "T", 11, 1, none, none, false, 0, 0, []⟩,
               ⟨"s3", "U", 99, 2, none, none, false, 0, 0, []⟩] }).2.2 = []
    ∧ Event.logE "✓ Migrated 0 channels" "INFO"
        ∈ (migrateServer emptyMaps ⟨"g1", "G", none⟩ (some "FX") none true
            { okOracle with
                prefetchChannels := Except.ok [⟨"f1", "S"⟩, ⟨"f2", "T"⟩, ⟨"f3", "U"⟩],
                discordChannels := Except.ok
                  [⟨"s1", "S", 13, 0, none, none, false, 0, 0, []⟩,
                   ⟨"s2", "T", 11, 1, none, none, false, 0, 0, []⟩,
                   ⟨"s3", "U", 99, 2, none, none, false, 0, 0, []⟩] }).2.2
    ∧ Event.unsupported "Stage channel" "Skipped S"
        ∈ (migrateServer emptyMaps ⟨"g1", "G", none⟩ (some "FX") none true
            { okOracle with
                prefetchChannels := Except.ok [⟨"f1", "S"⟩, ⟨"f2", "T"⟩, ⟨"f3", "U"⟩],
                discordChannels := Except.ok
                  [⟨"s1", "S", 13, 0, none, none, false, 0, 0, []⟩,
                   ⟨"s2", "T", 11, 1, none, none, false, 0, 0, []⟩,
                   ⟨"s3", "U", 99, 2, none, none, false, 0, 0, []⟩] }).2.2
    ∧ (migrateServer emptyMaps ⟨"g1", "G", none⟩ (some "FX") none true
        { okOracle with
            prefetchChannels := Except.ok [⟨"f1", "S"⟩, ⟨"f2", "T"⟩, ⟨"f3", "U"⟩],
            discordChannels := Except.ok
              [⟨"s1", "S", 13, 0, none, none, false, 0, 0, []⟩,
               ⟨"s2", "T", 11, 1, none, none, false, 0, 0, []⟩,
               ⟨"s3", "U", 99, 2, none, none, false, 0, 0, []⟩] }).2.1.category_id_map = []
    ∧ (migrateServer emptyMaps ⟨"g1", "G", none⟩ (some "FX") none true
        { okOracle with
            prefetchChannels := Except.ok [⟨"f1", "S"⟩, ⟨"f2", "T"⟩, ⟨"f3", "U"⟩],
            discordChannels := Except.ok
              [⟨"s1", "S", 13, 0, none, none, false, 0, 0, []⟩,
               ⟨"s2", "T", 11, 1, none, none, false, 0, 0, []⟩,
               ⟨"s3", "U", 99, 2, none, none, false, 0, 0, []⟩] }).2.1.channel_id_map = [] := by
  refine ⟨by decide, by decide, by decide, by decide, by decide, by decide,
    by decide, by decide, by decide, by decide, by decide⟩

/-- C6 as amended: in partial-sync mode with a pre-fetched destination state,
over a source list with pairwise-distinct ids and at most one default role, a
name-matched role — the default role included — is mapped directly to the
matched existing destination role's id and never passed to a creation call; a
name-matched category, and a name-matched channel of a created-or-converted
type (text 0, voice 2, announcement 5, forum 15), are mapped directly to the
matched existing destination channel's id and never passed to a creation
call; a name-matched emoji is counted as already present and never uploaded,
but no identity-mapping entry is recorded for it (the engine maintains no
emoji mapping table). -/
theorem partial_sync_no_duplication (exL : List NamedItem) :
    (∀ (roles : List Role) (cr : Nat → Except String String) (rr : Except String Unit)
       (m : Dict),
       (∀ r1 ∈ roles, ∀ r2 ∈ roles, r1.id = r2.id → r1 = r2) →
       (∀ r1 ∈ roles, ∀ r2 ∈ roles, r1.name = "@everyone" → r2.name = "@everyone" → r1 = r2) →
       ∀ r ∈ roles, ∀ ex, byName exL r.name = some ex →
       dget (migrateRolesCore roles exL cr rr m).1 r.id = some ex.id
       ∧ ∀ pm c ho mb, Event.createRoleCall r.name pm c ho mb
           ∉ (migrateRolesCore roles exL cr rr m).2)
    ∧ (∀ (chs : List Channel) (mp : Bool) (ccr : Nat → Except String String)
        (ecr : Nat → Nat → Except String Unit) (cchr : Nat → Except String String)
        (echr : Nat → Nat → Except String Unit) (rm cm hm : Dict),
        (∀ c1 ∈ chs, ∀ c2 ∈ chs, c1.id = c2.id → c1 = c2) →
        ∀ ch ∈ chs, ∀ ex, byName exL ch.name = some ex →
        (ch.ctype = 4 →
          dget (migrateChannels chs (some exL) mp ccr ecr cchr echr rm cm hm).1 ch.id = some ex.id)
        ∧ (ch.ctype = 0 ∨ ch.ctype = 2 ∨ ch.ctype = 5 ∨ ch.ctype = 15 →
          dget (migrateChannels chs (some exL) mp ccr ecr cchr echr rm cm hm).2.1 ch.id = some ex.id)
        ∧ (∀ ct tp nf ps br ul pr, Event.createChannelCall ch.name ct tp nf ps br ul pr
            ∉ (migrateChannels chs (some exL) mp ccr ecr cchr echr rm cm hm).2.2.2))
    ∧ (∀ (exB : String → Option NamedItem) (dl : Option Unit) (cres : Except String Unit)
        (e : Emoji) (ex : NamedItem), exB e.name = some ex →
        migrateEmojiStep exB dl cres e =
          (1, [Event.logE ("Skipping emoji (already exists): :" ++ e.name ++ ":") "INFO"]))
    ∧ (∀ (emjs : List Emoji) (dl : Nat → Option Unit) (cres : Nat → Except String Unit)
        (e : Emoji), e ∈ emjs → ∀ ex, byName exL e.name = some ex →
        Event.createEmojiCall e.name ∉ (migrateEmojis emjs (some exL) dl cres).2) := by
  refine ⟨?_, ?_, ?_, ?_⟩
  · intro roles cr rr m huniq hone r hr ex hx
    refine ⟨?_, ?_⟩
    · by_cases hev : r.name = "@everyone"
      · simp only [migrateRolesCore]
        rcases hf : roles.find? (fun r0 => r0.name == "@everyone") with _ | er
        · exfalso
          have hno := List.find?_eq_none.mp hf r hr
          simp [hev] at hno
        · have herm : er ∈ roles := List.mem_of_find?_eq_some hf
          have hern : er.name = "@everyone" := by simpa using List.find?_some hf
          have herr : er = r := hone er herm r hr hern hev
          subst herr
          simp only [hf]
          rcases hexf : byName exL "@everyone" with _ | fe
          · rw [hev, hexf] at hx
            simp at hx
          · have hfe : fe = ex := by
              rw [hev, hexf] at hx
              exact Option.some.inj hx
            have hne : ∀ r2 ∈ sortByKey (fun r2 => r2.position)
                (roles.filter (fun r2 => !(r2.name == "@everyone"))), ¬ r2.id = er.id := by
              intro r2 hr2 hid
              rw [mem_sortByKey, List.mem_filter] at hr2
              have heq : r2 = er := huniq r2 hr2.1 er hr hid
              rw [heq] at hr2
              simp [hev] at hr2
            simp only [hexf]
            have hstab := migrateRolesLoop_dget_ne (byName exL) cr 0
                (dinsert m er.id fe.id) [(fe.id, er.position)] _ er.id hne
            exact hstab.trans (by rw [dget_dinsert]; simp [hfe])
      · have hmemL : r ∈ sortByKey (fun r2 => r2.position)
            (roles.filter (fun r2 => !(r2.name == "@everyone"))) := by
          rw [mem_sortByKey, List.mem_filter]
          exact ⟨hr, by simp [hev]⟩
        have hunis : ∀ r2 ∈ sortByKey (fun r2 => r2.position)
            (roles.filter (fun r2 => !(r2.name == "@everyone"))), r2.id = r.id → r2 = r := by
          intro r2 hr2 hid
          rw [mem_sortByKey, List.mem_filter] at hr2
          exact huniq r2 hr2.1 r hr hid
        simp only [migrateRolesCore]
        rcases hfind : roles.find? (fun r2 => r2.name == "@everyone") with _ | er
        · exact migrateRolesLoop_matched_value (byName exL) cr r ex hx _ _ _ _ hunis (Or.inl hmemL)
        · rcases hexf : byName exL "@everyone" with _ | fe
          all_goals
            simp only [hexf]
            exact migrateRolesLoop_matched_value (byName exL) cr r ex hx _ _ _ _ hunis (Or.inl hmemL)
    · intro pm c ho mb hmem
      simp only [migrateRolesCore, List.mem_append] at hmem
      rcases hmem with ((hmem | hmem) | hmem) | hmem
      · rcases hfind : roles.find? (fun r2 => r2.name == "@everyone") with _ | er <;>
          rw [hfind] at hmem
        · simp at hmem
        · rcases hexf : byName exL "@everyone" with _ | fe <;> rw [hexf] at hmem <;>
            simp at hmem
      · have := migrateRolesLoop_create_unmatched _ _ _ _ _ _ _ _ _ _ _ hmem
        rw [hx] at this
        simp at this
      · simp at hmem
      · exact reorderRolesEv_no_create rr _ _ _ _ _ _ hmem
  · intro chs mp ccr ecr cchr echr rm cm hm huniq ch hch ex hx
    refine ⟨?_, ?_, ?_⟩
    · intro h4
      simp only [migrateChannels]
      apply migrateCatsLoop_matched_value (byName exL) mp ccr ecr rm ch ex hx
      · intro c2 hc2 hid
        rw [mem_sortByKey, List.mem_filter] at hc2
        exact huniq c2 hc2.1 ch hch hid
      · left
        rw [mem_sortByKey, List.mem_filter]
        exact ⟨hch, by simp [h4]⟩
    · intro htype
      simp only [migrateChannels]
      apply migrateLeafLoop_matched_value (byName exL) _ rm mp cchr echr ch ex hx htype
      · intro c2 hc2 hid
        rw [mem_sortByKey] at hc2
        exact huniq c2 hc2 ch hch hid
      · left
        rw [mem_sortByKey]
        exact hch
    · intro ct tp nf ps br ul pr hmem
      simp only [migrateChannels, List.mem_append] at hmem
      rcases hmem with ((hmem | hmem) | hmem) | hmem
      · simp at hmem
      · have := migrateCatsLoop_create_unmatched (byName exL) mp ccr ecr rm
          _ _ _ _ _ _ _ _ _ _ _ hmem
        rw [hx] at this
        simp at this
      · have := migrateLeafLoop_create_unmatched (byName exL) _ rm mp cchr echr
          _ _ _ _ _ _ _ _ _ _ _ _ hmem
        rw [hx] at this
        simp at this
      · simp at hmem
  · intro exB dl cres e ex hx
    exact migrateEmojiStep_matched exB dl cres e ex hx
  · intro emjs dl cres e he ex hx hmem
    have hne : emjs.isEmpty = false := by
      cases emjs with
      | nil => simp at he
      | cons a as => rfl
    simp only [migrateEmojis, hne, Bool.false_eq_true, if_false, List.mem_append] at hmem
    rcases hmem with (hmem | hmem) | hmem
    · simp at hmem
    · have := migrateEmojisLoop_create_unmatched (byName exL) dl cres _ _ _ _ hmem
      rw [hx] at this
      simp at this
    · simp at hmem

/-- Witness for partial_sync_no_duplication: a matched non-default role and
the matched default role are each bound to the matching destination role's
id, a matched text channel is bound to the matching destination channel's id,
and a matched emoji is counted and skipped. -/
theorem partial_sync_no_duplication_witness :
    dget (migrateRolesCore
        [⟨"re", "@everyone", 0, 0, 0, false, false⟩, ⟨"r1", "X", 1, 0, 0, false, false⟩]
        [⟨"fe", "@everyone"⟩, ⟨"fx", "X"⟩, ⟨"fc", "C"⟩, ⟨"fh", "H"⟩]
        (fun _ => Except.ok "q") (Except.ok ()) []).1 "r1" = some "fx"
    ∧ dget (migrateRolesCore
        [⟨"re", "@everyone", 0, 0, 0, false, false⟩, ⟨"r1", "X", 1, 0, 0, false, false⟩]
        [⟨"fe", "@everyone"⟩, ⟨"fx", "X"⟩, ⟨"fc", "C"⟩, ⟨"fh", "H"⟩]
        (fun _ => Except.ok "q") (Except.ok ()) []).1 "re" = some "fe"
    ∧ dget (migrateChannels
        [⟨"c1", "C", 4, 0, none, none, false, 0, 0, []⟩,
         ⟨"h1", "H", 0, 1, none, none, false, 0, 0, []⟩]
        (some [⟨"fe", "@everyone"⟩, ⟨"fx", "X"⟩, ⟨"fc", "C"⟩, ⟨"fh", "H"⟩])
        false (fun _ => Except.ok "a") (fun _ _ => Except.ok ())
        (fun _ => Except.ok "b") (fun _ _ => Except.ok ()) [] [] []).2.1 "h1" = some "fh"
    ∧ migrateEmojiStep (byName [⟨"fe", "@everyone"⟩, ⟨"fx", "X"⟩, ⟨"fc", "C"⟩, ⟨"fh", "H"⟩])
        (some ()) (Except.ok ()) ⟨"e1", "X", false⟩ =
      (1, [Event.logE ("Skipping emoji (already exists): :" ++ "X" ++ ":") "INFO"]) := by
  have hp := partial_sync_no_duplication
      [⟨"fe", "@everyone"⟩, ⟨"fx", "X"⟩, ⟨"fc", "C"⟩, ⟨"fh", "H"⟩]
  refine ⟨(hp.1 [⟨"re", "@everyone", 0, 0, 0, false, false⟩, ⟨"r1", "X", 1, 0, 0, false, false⟩]
      (fun _ => Except.ok "q") (Except.ok ()) [] (by decide) (by decide)
      ⟨"r1", "X", 1, 0, 0, false, false⟩ (by decide) ⟨"fx", "X"⟩ (by decide)).1,
    (hp.1 [⟨"re", "@everyone", 0, 0, 0, false, false⟩, ⟨"r1", "X", 1, 0, 0, false, false⟩]
      (fun _ => Except.ok "q") (Except.ok ()) [] (by decide) (by decide)
      ⟨"re", "@everyone", 0, 0, 0, false, false⟩ (by decide) ⟨"fe", "@everyone"⟩ (by decide)).1,
    (hp.2.1 [⟨"c1", "C", 4, 0, none, none, false, 0, 0, []⟩,
        ⟨"h1", "H", 0, 1, none, none, false, 0, 0, []⟩] false
      (fun _ => Except.ok "a") (fun _ _ => Except.ok ()) (fun _ => Except.ok "b")
      (fun _ _ => Except.ok ()) [] [] [] (by decide)
      ⟨"h1", "H", 0, 1, none, none, false, 0, 0, []⟩ (by decide)
      ⟨"fh", "H"⟩ (by decide)).2.1 (by decide),
    hp.2.2.1 (byName [⟨"fe", "@everyone"⟩, ⟨"fx", "X"⟩, ⟨"fc", "C"⟩, ⟨"fh", "H"⟩])
      (some ()) (Except.ok ()) ⟨"e1", "X", false⟩ ⟨"fx", "X"⟩ (by decide)⟩

/-- Key containment between two sets of mapping tables: every key bound in
the first is still bound in the second, table by table. -/
def mapsSube (a b : Maps) : Prop :=
  (∀ k, (dget a.guild_id_map k).isSome = true → (dget b.guild_id_map k).isSome = true)
  ∧ (∀ k, (dget a.role_id_map k).isSome = true → (dget b.role_id_map k).isSome = true)
  ∧ (∀ k, (dget a.category_id_map k).isSome = true → (dget b.category_id_map k).isSome = true)
  ∧ (∀ k, (dget a.channel_id_map k).isSome = true → (dget b.channel_id_map k).isSome = true)

theorem mapsSube_refl (a : Maps) : mapsSube a a :=
  ⟨fun _ h => h, fun _ h => h, fun _ h => h, fun _ h => h⟩

theorem mapsSube_trans {a b c : Maps} (h1 : mapsSube a b) (h2 : mapsSube b c) :
    mapsSube a c :=
  ⟨fun k h => h2.1 k (h1.1 k h), fun k h => h2.2.1 k (h1.2.1 k h),
   fun k h => h2.2.2.1 k (h1.2.2.1 k h), fun k h => h2.2.2.2 k (h1.2.2.2 k h)⟩

/-- A key already bound stays bound through a whole _migrate_roles run. -/
theorem migrateRolesCore_isSome_mono (roles : List Role) (ex : List NamedItem)
    (cr : Nat → Except String String) (rr : Except String Unit) (m : Dict)
    (k2 : String) (h : (dget m k2).isSome = true) :
    (dget (migrateRolesCore roles ex cr rr m).1 k2).isSome = true := by
  simp only [migrateRolesCore]
  rcases hf : roles.find? (fun r => r.name == "@everyone") with _ | er <;> simp only [hf]
  · exact migrateRolesLoop_isSome_mono _ _ _ _ _ _ _ h
  · rcases hb : byName ex "@everyone" with _ | fe <;> simp only [hb]
    · exact migrateRolesLoop_isSome_mono _ _ _ _ _ _ _ h
    · exact migrateRolesLoop_isSome_mono _ _ _ _ _ _ _ (dget_dinsert_isSome _ _ _ _ h)

theorem migrateRoles_ok_mono {roles : List Role} {exr : Option (List NamedItem)}
    {rf : Except String (List NamedItem)} {cr : Nat → Except String String}
    {rr : Except String Unit} {rm0 rm : Dict} {ev : List Event}
    (heq : migrateRoles roles exr rf cr rr rm0 = Except.ok (rm, ev))
    (k : String) (h : (dget rm0 k).isSome = true) : (dget rm k).isSome = true := by
  unfold migrateRoles at heq
  rcases exr with _ | ex
  · rcases rf with e | ex2
    · simp at heq
    · simp at heq
      rw [← heq.1]
      exact migrateRolesCore_isSome_mono _ _ _ _ _ _ h
  · simp at heq
    rw [← heq.1]
    exact migrateRolesCore_isSome_mono _ _ _ _ _ _ h

theorem migrateChannels_cat_isSome_mono (chs : List Channel)
    (exst : Option (List NamedItem)) (mp : Bool) (a : Nat → Except String String)
    (b : Nat → Nat → Except String Unit) (c : Nat → Except String String)
    (d : Nat → Nat → Except String Unit) (rm cm hm : Dict) (k : String)
    (h : (dget cm k).isSome = true) :
    (dget (migrateChannels chs exst mp a b c d rm cm hm).1 k).isSome = true := by
  simp only [migrateChannels]
  exact migrateCatsLoop_isSome_mono _ _ _ _ _ k _ _ _ h

theorem migrateChannels_chan_isSome_mono (chs : List Channel)
    (exst : Option (List NamedItem)) (mp : Bool) (a : Nat → Except String String)
    (b : Nat → Nat → Except String Unit) (c : Nat → Except String String)
    (d : Nat → Nat → Except String Unit) (rm cm hm : Dict) (k : String)
    (h : (dget hm k).isSome = true) :
    (dget (migrateChannels chs exst mp a b c d rm cm hm).2.1 k).isSome = true := by
  simp only [migrateChannels]
  exact migrateLeafLoop_isSome_mono _ _ _ _ _ _ k _ _ _ _ h

theorem rolesStageFn_mono {enabled : Bool} {roles : List Role}
    {exr : Option (List NamedItem)} {rf : Except String (List NamedItem)}
    {cr : Nat → Except String String} {rr : Except String Unit}
    {m1 m2 : Maps} {ev : List Event}
    (h : rolesStageFn enabled roles exr rf cr rr m1 = Except.ok (m2, ev)) :
    mapsSube m1 m2 := by
  unfold rolesStageFn at h
  cases enabled
  · simp at h
    rw [← h.1]
    exact mapsSube_refl m1
  · simp only [if_true] at h
    rcases hmr : migrateRoles roles exr rf cr rr m1.role_id_map with ⟨ev2, e2⟩ | ⟨rm, ev2⟩ <;>
      rw [hmr] at h
    · simp at h
    · simp at h
      rw [← h.1]
      exact ⟨fun k hh => hh, fun k hh => migrateRoles_ok_mono hmr k hh,
             fun k hh => hh, fun k hh => hh⟩

theorem chanStageFn_mono (enabled : Bool) (chans : List Channel)
    (exc : Option (List NamedItem)) (mp : Bool) (o : Oracle) (m2 : Maps) :
    mapsSube m2 (chanStageFn enabled chans exc mp o m2).1 := by
  cases enabled
  · exact mapsSube_refl m2
  · refine ⟨fun k hh => hh, fun k hh => hh, fun k hh => ?_, fun k hh => ?_⟩
    · show (dget (migrateChannels chans exc mp o.createCat o.editPermsCat o.createChan
          o.editPermsChan m2.role_id_map m2.category_id_map m2.channel_id_map).1 k).isSome = true
      exact migrateChannels_cat_isSome_mono _ _ _ _ _ _ _ _ _ _ k hh
    · show (dget (migrateChannels chans exc mp o.createCat o.editPermsCat o.createChan
          o.editPermsChan m2.role_id_map m2.category_id_map m2.channel_id_map).2.1 k).isSome = true
      exact migrateChannels_chan_isSome_mono _ _ _ _ _ _ _ _ _ _ k hh

/-- Within migrate_server the four mapping tables only grow: every key bound
on entry is still bound in the maps carried by the result, whether the run
succeeded or failed. -/
theorem migrateServerBody_mono (m : Maps) (g : Guild) (egid : Option String)
    (opts : List (String × Bool)) (ps : Bool) (o : Oracle) :
    (∀ m1 ev e, migrateServerBody m g egid opts ps o = Except.error (m1, ev, e) →
      mapsSube m m1)
    ∧ (∀ m1 ev, migrateServerBody m g egid opts ps o = Except.ok (m1, ev) →
      mapsSube m m1) := by
  have hG : ∀ fgid, mapsSube m { m with guild_id_map := dinsert m.guild_id_map g.id fgid } :=
    fun fgid =>
      ⟨fun k h => dget_dinsert_isSome _ _ _ _ h, fun _ h => h, fun _ h => h, fun _ h => h⟩
  have main : ∀ (x : Except (Maps × List Event × String) (Maps × List Event)),
      migrateServerBody m g egid opts ps o = x →
      (∀ m1 ev e, x = Except.error (m1, ev, e) → mapsSube m m1)
      ∧ (∀ m1 ev, x = Except.ok (m1, ev) → mapsSube m m1) := by
    intro x hx
    unfold migrateServerBody at hx
    rcases hrg : resolveGuild g egid ps o with ⟨ev0, e0⟩ | ⟨fgid, evG⟩ <;> rw [hrg] at hx
      <;> simp only [] at hx
    · constructor
      · intro m1 ev e he
        rw [← hx] at he
        simp at he
        rw [← he.1]
        exact mapsSube_refl m
      · intro m1 ev he
        rw [← hx] at he
        simp at he
    · rcases hf1 : fetchStep (getOption opts "roles") o.discordRoles
          Event.fetchDiscordRolesCall with e1 | ⟨roles, evFR⟩ <;> rw [hf1] at hx
      <;> simp only [] at hx
      · constructor
        · intro m1 ev e he
          rw [← hx] at he
          simp at he
          rw [← he.1]
          exact hG fgid
        · intro m1 ev he
          rw [← hx] at he
          simp at he
      · rcases hf2 : fetchStep (getOption opts "channels" || getOption opts "permissions")
            o.discordChannels Event.fetchDiscordChannelsCall with e2 | ⟨chans, evFC⟩ <;>
          rw [hf2] at hx
      <;> simp only [] at hx
        · constructor
          · intro m1 ev e he
            rw [← hx] at he
            simp at he
            rw [← he.1]
            exact hG fgid
          · intro m1 ev he
            rw [← hx] at he
            simp at he
        · rcases hf3 : fetchStep (getOption opts "emojis") o.discordEmojis
              Event.fetchDiscordEmojisCall with e3 | ⟨emojis, evFE⟩ <;> rw [hf3] at hx
      <;> simp only [] at hx
          · constructor
            · intro m1 ev e he
              rw [← hx] at he
              simp at he
              rw [← he.1]
              exact hG fgid
            · intro m1 ev he
              rw [← hx] at he
              simp at he
          · rcases hrs : rolesStageFn (getOption opts "roles") roles
                (prefetchStep ps egid opts o).1.1
                o.refetchRoles o.createRole o.reorder
                { m with guild_id_map := dinsert m.guild_id_map g.id fgid } with
              ⟨evr, er⟩ | ⟨m2, evR⟩ <;> rw [hrs] at hx
      <;> simp only [] at hx
            · constructor
              · intro m1 ev e he
                rw [← hx] at he
                simp at he
                rw [← he.1]
                exact hG fgid
              · intro m1 ev he
                rw [← hx] at he
                simp at he
            · constructor
              · intro m1 ev e he
                rw [← hx] at he
                simp at he
              · intro m1 ev he
                rw [← hx] at he
                simp at he
                rw [← he.1]
                exact mapsSube_trans (hG fgid)
                  (mapsSube_trans (rolesStageFn_mono hrs)
                    (chanStageFn_mono _ _ _ _ o m2))
  exact main (migrateServerBody m g egid opts ps o) rfl

/-- The maps carried out of migrate_server contain every key they contained
on entry. -/
theorem migrateServer_mono (m : Maps) (g : Guild) (egid : Option String)
    (mopts : Option (List (String × Bool))) (ps : Bool) (o : Oracle) :
    mapsSube m (migrateServer m g egid mopts ps o).2.1 := by
  unfold migrateServer
  rcases hb : migrateServerBody m g egid (effectiveOptions mopts) ps o with
    ⟨m1, ev, e⟩ | ⟨m1, ev⟩
  · simpa using (migrateServerBody_mono m g egid (effectiveOptions mopts) ps o).1 m1 ev e hb
  · simpa using (migrateServerBody_mono m g egid (effectiveOptions mopts) ps o).2 m1 ev hb

theorem migrateServersFrom_mono (oracles : Nat → Oracle) :
    ∀ (jobs : List GuildJob) (k : Nat) (m : Maps),
      mapsSube m (migrateServersFrom oracles k m jobs).1 := by
  intro jobs
  induction jobs with
  | nil =>
    intro k m
    simp only [migrateServersFrom]
    exact mapsSube_refl m
  | cons j js ih =>
    intro k m
    simp only [migrateServersFrom]
    exact mapsSube_trans (migrateServer_mono m j.guild j.egid j.mopts j.psync (oracles k))
      (ih (k + 1) _)

/-- Oracle of the first guild of the cross-guild batch: one source role A
whose creation returns destination id f1. -/
def crossO1 : Oracle :=
  { okOracle with
      discordRoles := Except.ok [⟨"r1", "A", 1, 0, 0, false, false⟩],
      refetchRoles := Except.ok [],
      createRole := fun _ => Except.ok "f1" }

/-- Oracle of the second guild of the cross-guild batch: one source text
channel whose permission overwrite targets the FIRST guild's role id r1. -/
def crossO2 : Oracle :=
  { okOracle with
      discordChannels :=
        Except.ok [⟨"c1", "chat", 0, 0, none, none, false, 64000, 0, [⟨"r1", 0, 7, 1⟩]⟩],
      createChan := fun _ => Except.ok "h1" }

/-- A two-guild batch: guild one migrates only roles, guild two migrates only
channels (with permissions), each into its own existing destination guild. -/
def crossJobs : List GuildJob :=
  [⟨⟨"g1", "G1", none⟩, some "FX1",
    some [("roles", true), ("channels", false), ("emojis", false)], false⟩,
   ⟨⟨"g2", "G2", none⟩, some "FX2",
    some [("roles", false), ("emojis", false)], false⟩]

/-- C3, counterexample to the claim as stated: in a two-guild batch the role
mapping r1 to f1 written while migrating guild one is still visible while
migrating guild two — guild two migrates no roles at all, yet the overwrite
of its channel, which targets guild one's source role id r1, is resolved and
applied with guild one's destination role id f1, and the entry is still in
the table when the batch ends.  The migrator instance and its four tables
span the whole batch, not a single guild's run. -/
theorem identity_map_cross_guild_visible :
    Event.editPermsCall "h1" "f1" 7 1
      ∈ (migrateServers crossJobs (fun k => if k == 0 then crossO1 else crossO2)).2
    ∧ dget (migrateServers crossJobs
        (fun k => if k == 0 then crossO1 else crossO2)).1.role_id_map "r1" = some "f1" := by
  refine ⟨by decide, by decide⟩

/-- C3 as amended: the four identity tables are scoped to the migrator
instance, which migrate_servers creates once per batch: the batch threads the
same tables through every guild (each guild's migration starts from the maps
the previous guild left), and entries only accumulate — any key bound at some
point in the batch is still bound when the batch ends, so entries written
while migrating one guild remain visible while migrating every later guild. -/
theorem identity_map_batch_scope :
    (∀ (m : Maps) (g : Guild) (egid : Option String)
       (mopts : Option (List (String × Bool))) (ps : Bool) (o : Oracle),
       mapsSube m (migrateServer m g egid mopts ps o).2.1)
    ∧ (∀ (oracles : Nat → Oracle) (k : Nat) (m : Maps) (jobs : List GuildJob),
       mapsSube m (migrateServersFrom oracles k m jobs).1)
    ∧ (∀ (oracles : Nat → Oracle) (k : Nat) (m : Maps) (j : GuildJob) (js : List GuildJob),
       migrateServersFrom oracles k m (j :: js) =
         ((migrateServersFrom oracles (k + 1)
             (migrateServer m j.guild j.egid j.mopts j.psync (oracles k)).2.1 js).1,
          (migrateServer m j.guild j.egid j.mopts j.psync (oracles k)).2.2 ++
            [Event.sleepE] ++
          (migrateServersFrom oracles (k + 1)
             (migrateServer m j.guild j.egid j.mopts j.psync (oracles k)).2.1 js).2)) :=
  ⟨migrateServer_mono,
   fun oracles k m jobs => migrateServersFrom_mono oracles jobs k m,
   fun _ _ _ _ _ => rfl⟩

/-- Witness for identity_map_batch_scope: a pre-existing role binding
survives a one-guild batch. -/
theorem identity_map_batch_scope_witness :
    (dget (migrateServersFrom (fun _ => okOracle) 0 ⟨[], [("rX", "fX")], [], []⟩
        [⟨⟨"g1", "G", none⟩, some "FX", none, false⟩]).1.role_id_map "rX").isSome = true :=
  (identity_map_batch_scope.2.1 (fun _ => okOracle) 0 ⟨[], [("rX", "fX")], [], []⟩
      [⟨⟨"g1", "G", none⟩, some "FX", none, false⟩]).2.1 "rX" (by decide)

/-- With the roles toggle on, a failing roles pre-fetch empties the whole
partial-sync pre-fetch result and logs a warning. -/
theorem prefetch_roles_error (opts : List (String × Bool)) (o : Oracle) (e : String)
    (hopt : getOption opts "roles" = true) (he : o.prefetchRoles = Except.error e) :
    prefetch opts o = ((none, none, none),
      [Event.logE "Fetching existing Fluxer server data for partial sync..." "INFO",
       Event.fetchFluxerRolesCall,
       Event.logE ("Failed to fetch existing Fluxer data: " ++ e) "WARN"]) := by
  simp [prefetch, hopt, he]

/-- Oracle for the C8 counterexample: the partial-sync pre-fetch fails, the
role stage's own refetch succeeds and returns a destination role matching the
single source role by name. -/
def c8MatchOracle : Oracle :=
  { okOracle with
      prefetchRoles := Except.error "boom",
      refetchRoles := Except.ok [⟨"fa", "A"⟩],
      discordRoles := Except.ok [⟨"ra", "A", 1, 0, 0, false, false⟩] }

/-- Oracle for the C8 abort case: both the pre-fetch and the role stage's own
refetch fail. -/
def c8AbortOracle : Oracle :=
  { okOracle with
      prefetchRoles := Except.error "boom",
      refetchRoles := Except.error "down" }

/-- C8, counterexample to the claim as stated: after a failed partial-sync
pre-fetch the role stage does not proceed as if no destination items were
known.  It refetches the destination roles itself; when that succeeds, the
source role A is name-matched against the refetched list and mapped instead
of created (so not every source item is created), and when the refetch also
fails, the whole guild migration aborts with a false result instead of
creating everything. -/
theorem prefetch_failure_refuted :
    Event.logE ("Failed to fetch existing Fluxer data: " ++ "boom") "WARN"
      ∈ (migrateServer emptyMaps ⟨"g1", "G", none⟩ (some "FX") none true c8MatchOracle).2.2
    ∧ roleCreateCalls
        (migrateServer emptyMaps ⟨"g1", "G", none⟩ (some "FX") none true c8MatchOracle).2.2 = []
    ∧ dget (migrateServer emptyMaps ⟨"g1", "G", none⟩ (some "FX") none true
        c8MatchOracle).2.1.role_id_map "ra" = some "fa"
    ∧ (migrateServer emptyMaps ⟨"g1", "G", none⟩ (some "FX") none true c8MatchOracle).1 = true
    ∧ (migrateServer emptyMaps ⟨"g1", "G", none⟩ (some "FX") none true c8AbortOracle).1 = false
    ∧ Event.logE "\n--- Migrating Channels ---" "INFO"
        ∉ (migrateServer emptyMaps ⟨"g1", "G", none⟩ (some "FX") none true c8AbortOracle).2.2 := by
  refine ⟨by decide, by decide, by decide, by decide, by decide, by decide⟩

/-- C8 as amended: when the partial-sync pre-fetch fails, the failure is
caught and logged and the pre-fetch result degrades to no known destination
items for all three stages.  The channel and emoji stages therefore create
every source item of a creatable kind (channels of types 0, 2, 4, 5, 15, and
every emoji whose download succeeds).  The role stage, however, performs a
destination-role fetch of its own: if it succeeds, name-matching applies to
its result, and if it also fails, the guild's migration aborts with a false
result. -/
theorem prefetch_failure_degradation (m : Maps) (g : Guild) (gid : String)
    (e : String) (o : Oracle) (rs : List Role) (cs : List Channel) (es : List Emoji)
    (L : List NamedItem)
    (hpe : o.prefetchRoles = Except.error e)
    (hdrr : o.discordRoles = Except.ok rs)
    (hdc : o.discordChannels = Except.ok cs)
    (hde : o.discordEmojis = Except.ok es)
    (hrf : o.refetchRoles = Except.ok L) :
    Event.logE ("Failed to fetch existing Fluxer data: " ++ e) "WARN"
      ∈ (migrateServer m g (some gid) none true o).2.2
    ∧ prefetchStep true (some gid) (effectiveOptions none) o = ((none, none, none),
        [Event.logE "Fetching existing Fluxer server data for partial sync..." "INFO",
         Event.fetchFluxerRolesCall,
         Event.logE ("Failed to fetch existing Fluxer data: " ++ e) "WARN"])
    ∧ Event.fetchFluxerRolesCall ∈ (migrateServer m g (some gid) none true o).2.2
    ∧ (∀ (chs : List Channel) (mp : Bool) (a : Nat → Except String String)
        (b : Nat → Nat → Except String Unit) (c : Nat → Except String String)
        (d : Nat → Nat → Except String Unit) (rm cm hm : Dict) (ch : Channel),
        ch ∈ chs →
        (ch.ctype = 0 ∨ ch.ctype = 2 ∨ ch.ctype = 5 ∨ ch.ctype = 15 →
          ∃ ct tp nf ps br ul pr, Event.createChannelCall ch.name ct tp nf ps br ul pr
            ∈ (migrateChannels chs none mp a b c d rm cm hm).2.2.2)
        ∧ (ch.ctype = 4 →
          Event.createChannelCall ch.name 4 none none ch.position none none none
            ∈ (migrateChannels chs none mp a b c d rm cm hm).2.2.2))
    ∧ (∀ (es2 : List Emoji) (dl : Nat → Option Unit) (cr : Nat → Except String Unit),
        (∀ k, dl k = some ()) → ∀ em ∈ es2,
        Event.createEmojiCall em.name ∈ (migrateEmojis es2 none dl cr).2)
    ∧ (∀ (o2 : Oracle) (e2 : String), o2.prefetchRoles = Except.error e →
        o2.discordRoles = Except.ok rs →
        (∃ cs2, o2.discordChannels = Except.ok cs2) →
        (∃ es2, o2.discordEmojis = Except.ok es2) →
        o2.refetchRoles = Except.error e2 →
        (migrateServer m g (some gid) none true o2).1 = false) := by
  have hR : getOption (effectiveOptions none) "roles" = true := by decide
  have hC : getOption (effectiveOptions none) "channels" = true := by decide
  have hP : getOption (effectiveOptions none) "permissions" = true := by decide
  have hE : getOption (effectiveOptions none) "emojis" = true := by decide
  refine ⟨?_, ?_, ?_, ?_, ?_, ?_⟩
  · simp [migrateServer, migrateServerBody, resolveGuild, prefetchStep, fetchStep,
      rolesStageFn, chanStageFn, emojiStageFn, migrateRoles,
      prefetch_roles_error _ _ _ hR hpe, hpe, hdrr, hdc, hde, hrf, hR, hC, hP, hE]
  · simp [prefetchStep, prefetch_roles_error _ _ _ hR hpe]
  · simp [migrateServer, migrateServerBody, resolveGuild, prefetchStep, fetchStep,
      rolesStageFn, chanStageFn, emojiStageFn, migrateRoles,
      prefetch_roles_error _ _ _ hR hpe, hpe, hdrr, hdc, hde, hrf, hR, hC, hP, hE]
  · intro chs mp a b c d rm cm hm ch hch
    constructor
    · intro htype
      obtain ⟨ct, tp, nf, ps2, br, ul, pr, hmem⟩ :=
        migrateLeafLoop_unmatched_creates (fun _ => none)
          (migrateCatsLoop (fun _ => none) mp a b rm 0 cm
            (sortByKey (fun c2 => c2.position) (chs.filter (fun c2 => c2.ctype == 4)))).1
          rm mp c d ch rfl htype
          (sortByKey (fun c2 => c2.position) chs) 0 hm 0 ((mem_sortByKey _ _ _).mpr hch)
      refine ⟨ct, tp, nf, ps2, br, ul, pr, ?_⟩
      simp only [migrateChannels, List.mem_append]
      tauto
    · intro h4
      have hmem := migrateCatsLoop_unmatched_creates (fun _ => none) mp a b rm ch rfl
        (sortByKey (fun c2 => c2.position) (chs.filter (fun c2 => c2.ctype == 4))) 0 cm
        (by rw [mem_sortByKey, List.mem_filter]; exact ⟨hch, by simp [h4]⟩)
      simp only [migrateChannels, List.mem_append]
      tauto
  · intro es2 dl cr hdl em he
    have hne : es2.isEmpty = false := by
      cases es2 with
      | nil => simp at he
      | cons x xs => rfl
    have hmem := migrateEmojisLoop_unmatched_creates (fun _ => none) dl cr hdl em rfl es2 0 0 he
    simp only [migrateEmojis, hne, Bool.false_eq_true, if_false, List.mem_append]
    tauto
  · intro o2 e2 hpe2 hdrr2 hdc2 hde2 hrf2
    obtain ⟨cs2, hdc2⟩ := hdc2
    obtain ⟨es2, hde2⟩ := hde2
    simp [migrateServer, migrateServerBody, resolveGuild, prefetchStep, fetchStep,
      rolesStageFn, chanStageFn, emojiStageFn, migrateRoles,
      prefetch_roles_error _ _ _ hR hpe2, hpe2, hdrr2, hdc2, hde2, hrf2, hR, hC, hP, hE]

/-- Witness for prefetch_failure_degradation: the failed pre-fetch of the
counterexample oracle is logged and the role stage refetch call is issued. -/
theorem prefetch_failure_degradation_witness :
    Event.logE ("Failed to fetch existing Fluxer data: " ++ "boom") "WARN"
      ∈ (migrateServer emptyMaps ⟨"g2", "H", none⟩ (some "FY") none true c8MatchOracle).2.2
    ∧ Event.fetchFluxerRolesCall
      ∈ (migrateServer emptyMaps ⟨"g2", "H", none⟩ (some "FY") none true c8MatchOracle).2.2 := by
  have hp := prefetch_failure_degradation emptyMaps ⟨"g2", "H", none⟩ "FY" "boom"
    c8MatchOracle [⟨"ra", "A", 1, 0, 0, false, false⟩] [] [] [⟨"fa", "A"⟩]
    rfl rfl rfl rfl rfl
  exact ⟨hp.1, hp.2.2.1⟩

/-- The partial-sync pre-fetch never issues channel-creation calls. -/
theorem create_not_mem_prefetch (opts : List (String × Bool)) (o : Oracle)
    (n : String) (ct : Nat) (tp : Option String) (nf : Option Bool) (ps : Int)
    (br ul : Option Nat) (pr : Option (Option String)) :
    Event.createChannelCall n ct tp nf ps br ul pr ∉ (prefetch opts o).2 := by
  by_cases h1 : getOption opts "roles" = true <;>
    by_cases h2 : getOption opts "channels" = true <;>
      by_cases h3 : getOption opts "emojis" = true <;>
        rcases hp1 : o.prefetchRoles with e1 | l1 <;>
          rcases hp2 : o.prefetchChannels with e2 | l2 <;>
            rcases hp3 : o.prefetchEmojis with e3 | l3 <;>
              simp [prefetch, h1, h2, h3, hp1, hp2, hp3]

/-- The partial-sync pre-fetch never issues edit-permissions calls. -/
theorem edit_not_mem_prefetch (opts : List (String × Bool)) (o : Oracle)
    (ci ri : String) (al de : Int) :
    Event.editPermsCall ci ri al de ∉ (prefetch opts o).2 := by
  by_cases h1 : getOption opts "roles" = true <;>
    by_cases h2 : getOption opts "channels" = true <;>
      by_cases h3 : getOption opts "emojis" = true <;>
        rcases hp1 : o.prefetchRoles with e1 | l1 <;>
          rcases hp2 : o.prefetchChannels with e2 | l2 <;>
            rcases hp3 : o.prefetchEmojis with e3 | l3 <;>
              simp [prefetch, h1, h2, h3, hp1, hp2, hp3]

/-- The partial-sync pre-fetch never issues emoji-upload calls. -/
theorem emoji_not_mem_prefetch (opts : List (String × Bool)) (o : Oracle) (n : String) :
    Event.createEmojiCall n ∉ (prefetch opts o).2 := by
  by_cases h1 : getOption opts "roles" = true <;>
    by_cases h2 : getOption opts "channels" = true <;>
      by_cases h3 : getOption opts "emojis" = true <;>
        rcases hp1 : o.prefetchRoles with e1 | l1 <;>
          rcases hp2 : o.prefetchChannels with e2 | l2 <;>
            rcases hp3 : o.prefetchEmojis with e3 | l3 <;>
              simp [prefetch, h1, h2, h3, hp1, hp2, hp3]

/-- C7: migrate_server never lets an exception past its boundary.  Any
escaped exception of the try block is converted into a logged failure and a
false result whose maps and trace are exactly those accumulated up to the
exception (nothing already done is rolled back), a run whose try block
finishes returns true with a success log, and when the exception occurs at
the source-roles fetch stage, the result is false, no channel, permission or
emoji mutation is ever issued (the later stages do not run), and the
destination-guild mapping recorded in the earlier guild-resolution stage is
still present in the resulting tables. -/
theorem orchestrator_containment (m : Maps) (g : Guild) (egid : Option String)
    (mopts : Option (List (String × Bool))) (ps : Bool) (o : Oracle) :
    (∀ m1 ev e, migrateServerBody m g egid (effectiveOptions mopts) ps o =
        Except.error (m1, ev, e) →
      migrateServer m g egid mopts ps o =
        (false, m1,
         [Event.logE ("\n=== Migrating Server: " ++ g.name ++ " ===") "INFO"] ++ ev ++
         [Event.logE ("Server migration failed: " ++ e) "ERROR"]))
    ∧ (∀ m1 ev, migrateServerBody m g egid (effectiveOptions mopts) ps o =
        Except.ok (m1, ev) →
      migrateServer m g egid mopts ps o =
        (true, m1,
         [Event.logE ("\n=== Migrating Server: " ++ g.name ++ " ===") "INFO"] ++ ev ++
         [Event.logE ("✓ Server " ++ g.name ++ " migrated successfully!") "INFO"]))
    ∧ (∀ e, o.discordRoles = Except.error e →
        getOption (effectiveOptions mopts) "roles" = true →
      (migrateServer m g egid mopts ps o).1 = false
      ∧ (∀ n ct tp nf ps2 br ul pr, Event.createChannelCall n ct tp nf ps2 br ul pr
          ∉ (migrateServer m g egid mopts ps o).2.2)
      ∧ (∀ ci ri al de, Event.editPermsCall ci ri al de
          ∉ (migrateServer m g egid mopts ps o).2.2)
      ∧ (∀ n, Event.createEmojiCall n ∉ (migrateServer m g egid mopts ps o).2.2)
      ∧ (∀ gid, egid = some gid →
          dget (migrateServer m g egid mopts ps o).2.1.guild_id_map g.id = some gid)
      ∧ (∀ fg, egid = none → o.createGuild = Except.ok fg →
          dget (migrateServer m g egid mopts ps o).2.1.guild_id_map g.id = some fg)) := by
  refine ⟨?_, ?_, ?_⟩
  · intro m1 ev e heq
    simp [migrateServer, heq]
  · intro m1 ev heq
    simp [migrateServer, heq]
  · intro e he2 hr2
    rcases egid with _ | gid
    · rcases hcg : o.createGuild with ef | fg <;> rcases hic : g.icon with _ | ih <;>
        cases ps <;> refine ⟨?_, ?_, ?_, ?_, ?_, ?_⟩ <;>
          simp [migrateServer, migrateServerBody, resolveGuild, prefetchStep, fetchStep,
            he2, hr2, hcg, hic, create_not_mem_prefetch, edit_not_mem_prefetch,
            emoji_not_mem_prefetch, dget_dinsert]
    · cases ps <;> refine ⟨?_, ?_, ?_, ?_, ?_, ?_⟩ <;>
        simp [migrateServer, migrateServerBody, resolveGuild, prefetchStep, fetchStep,
          he2, hr2, create_not_mem_prefetch, edit_not_mem_prefetch,
          emoji_not_mem_prefetch, dget_dinsert]

/-- Witness for orchestrator_containment: a run whose source-role fetch fails
reports false while retaining the guild mapping, and the success path of a
fully working oracle reports true. -/
theorem orchestrator_containment_witness :
    (migrateServer emptyMaps ⟨"g1", "G", none⟩ (some "FX") none false
        { okOracle with discordRoles := Except.error "api down" }).1 = false
    ∧ dget (migrateServer emptyMaps ⟨"g1", "G", none⟩ (some "FX") none false
        { okOracle with discordRoles := Except.error "api down" }).2.1.guild_id_map "g1"
      = some "FX"
    ∧ (∀ n, Event.createEmojiCall n
        ∉ (migrateServer emptyMaps ⟨"g1", "G", none⟩ (some "FX") none false
            { okOracle with discordRoles := Except.error "api down" }).2.2) := by
  have hp := orchestrator_containment emptyMaps ⟨"g1", "G", none⟩ (some "FX") none false
    { okOracle with discordRoles := Except.error "api down" }
  have hc := hp.2.2 "api down" rfl (by decide)
  exact ⟨hc.1, hc.2.2.2.2.1 "FX" rfl, hc.2.2.2.1⟩

end FluxMig
